import Mathlib

/-!
# device-select layer: `device_select_layer.cpp`

A shallow embedding of the Vulkan device-select layer.  Handles and function
pointers are numbers (0 is the null pointer), the global `instances` table is an
association list, and everything the layer reaches through a function pointer or
through libc (`getenv`, `calloc`, the next layer's entry points) is gathered in
an environment record `Env`.  A call of the layer is a pure function from the
environment, the table and the caller's arguments to an outcome that records how
the call ended, the table afterwards, what was printed on stderr and what the
caller's count and buffer hold afterwards.
-/

namespace DeviceSelect

/-! ## Vulkan types and constants used by the layer -/

/-- The C enum `VkResult`, as its integer value. -/
abbrev VkResult := Int

/-- Header constant `VK_SUCCESS` (vulkan_core.h, not among the sources). -/
def VK_SUCCESS : VkResult := 0

/-- Header constant `VK_INCOMPLETE` (vulkan_core.h, not among the sources). -/
def VK_INCOMPLETE : VkResult := 5

/-- Header constant `VK_ERROR_OUT_OF_HOST_MEMORY` (vulkan_core.h). -/
def VK_ERROR_OUT_OF_HOST_MEMORY : VkResult := -1

/-- Header constant `VK_ERROR_INITIALIZATION_FAILED` (vulkan_core.h). -/
def VK_ERROR_INITIALIZATION_FAILED : VkResult := -3

/-- A dispatchable handle `VkInstance`: an address, never dereferenced here. -/
abbrev VkInstance := Nat

/-- A dispatchable handle `VkPhysicalDevice`; 0 is what `calloc` leaves. -/
abbrev VkPhysicalDevice := Nat

/-- A function pointer: the address of the code; 0 is the null pointer. -/
abbrev FnPtr := Nat

/-- The fields of `VkPhysicalDeviceProperties` that the layer reads.
`deviceType` is the value of the C enum (0 other, 1 integrated GPU,
2 discrete GPU, 3 virtual GPU, 4 CPU); the two identifiers are `uint32_t`. -/
structure VkPhysicalDeviceProperties where
  deviceType : Nat
  vendorID : Nat
  deviceID : Nat
  deviceName : String
deriving DecidableEq, Repr

/-- The record `struct instance_info` (lines 33-39): five function pointers. -/
structure instance_info where
  DestroyInstance : FnPtr
  EnumeratePhysicalDevices : FnPtr
  GetInstanceProcAddr : FnPtr
  GetPhysicalDeviceProcAddr : FnPtr
  GetPhysicalDeviceProperties : FnPtr
deriving DecidableEq, Repr

/-- A value-initialised `instance_info`, as `operator[]` of the map creates
for a missing key: every pointer is null. -/
def instance_info.zero : instance_info :=
  ⟨0, 0, 0, 0, 0⟩

/-- The global `std::unordered_map<VkInstance, struct instance_info> instances`
(line 41), as an association list; the layer never iterates over it. -/
abbrev Registry := List (VkInstance × instance_info)

/-- The expression `instances[instance]`: the record stored for the key, and
the table afterwards.  For a missing key `operator[]` inserts a
value-initialised record and returns it. -/
def Registry.index (instances : Registry) (inst : VkInstance) :
    instance_info × Registry :=
  match instances.lookup inst with
  | some info => (info, instances)
  | none => (instance_info.zero, (inst, instance_info.zero) :: instances)

/-! ## The environment of a call -/

/-- What one call of the next layer's `vkEnumeratePhysicalDevices` did:
the status it returned, the value it left in `*pPhysicalDeviceCount`, and the
handles it stored into the buffer from index 0 on. -/
structure EnumReply where
  result : VkResult
  count : Nat
  devices : List VkPhysicalDevice
deriving DecidableEq, Repr

/-- Everything outside the translation unit that a call of the layer depends
on. -/
structure Env where
  /-- Value of `getenv("MESA_VK_DEVICE_SELECT")`; `none` is a null pointer. -/
  selection : Option String
  /-- Whether the first `calloc` (for `physical_devices`) returns non-null. -/
  calloc_physical_devices : Bool
  /-- Whether the second `calloc` (for `selected_physical_devices`) returns
  non-null. -/
  calloc_selected_physical_devices : Bool
  /-- Calling the code at a (non-null) address as
  `PFN_vkEnumeratePhysicalDevices`: arguments are the instance, the value of
  `*pPhysicalDeviceCount` on entry, and whether `pPhysicalDevices` is
  non-null. -/
  call_EnumeratePhysicalDevices : FnPtr → VkInstance → Nat → Bool → EnumReply
  /-- Calling the code at a (non-null) address as
  `PFN_vkGetPhysicalDeviceProperties` on a device. -/
  call_GetPhysicalDeviceProperties :
    FnPtr → VkPhysicalDevice → VkPhysicalDeviceProperties

/-! ## libc: the conversion `sscanf(selection, "%x:%x", ...)` -/

/-- The C-locale `isspace`: space, \t, \n, \v, \f, \r. -/
def isspace (c : Char) : Bool :=
  c.toNat = 32 || (9 ≤ c.toNat && c.toNat ≤ 13)

/-- Value of a hexadecimal digit character, `none` for any other character. -/
def hexval (c : Char) : Option Nat :=
  if 48 ≤ c.toNat ∧ c.toNat ≤ 57 then some (c.toNat - 48)
  else if 97 ≤ c.toNat ∧ c.toNat ≤ 102 then some (c.toNat - 87)
  else if 65 ≤ c.toNat ∧ c.toNat ≤ 70 then some (c.toNat - 55)
  else none

/-- Leading white space is skipped before a `%x` conversion. -/
def skip_space : List Char → List Char
  | [] => []
  | c :: t => if isspace c then skip_space t else c :: t

/-- Consumes the longest run of hexadecimal digits, accumulating its value;
returns the value, the number of digits consumed and the unread input. -/
def scan_hex_digits : List Char → Nat → Nat → Nat × Nat × List Char
  | [], acc, n => (acc, n, [])
  | c :: t, acc, n =>
    match hexval c with
    | some v => scan_hex_digits t (16 * acc + v) (n + 1)
    | none => (acc, n, c :: t)

/-- The object stored by `%x` into an `unsigned` for a digit string of value
`v` with or without a minus sign.  The conversion is that of `strtoul` of
glibc on an LP64 platform (saturating at `ULONG_MAX`, negation in
`unsigned long`), and the low 32 bits are stored; a value that does not fit
is stored reduced, not refused.  For a value below 2^32 without a sign the
result is `v` itself. -/
def store_unsigned (neg : Bool) (v : Nat) : Nat :=
  if 2 ^ 64 ≤ v then (2 ^ 64 - 1) % 2 ^ 32
  else if neg then ((2 ^ 64 - v) % 2 ^ 64) % 2 ^ 32
  else v % 2 ^ 32

/-- Outcome of one conversion directive. -/
inductive Conv where
  /-- End of input before any character of the item. -/
  | input_failure
  /-- The input item is not a hexadecimal integer. -/
  | matching_failure
  /-- A value was converted; the list is the unread input. -/
  | ok (value : Nat) (rest : List Char)
deriving DecidableEq, Repr

/-- The digits of a `%x` item, after the sign, as the `vfscanf` of glibc reads
them: when the input starts with `0x` or `0X` the two characters are consumed
and the hexadecimal digits that follow (possibly none) are converted, so that
a prefix with no digit after it converts to 0; otherwise at least one
hexadecimal digit is required. -/
def scan_x_body (neg : Bool) (s : List Char) : Conv :=
  match s with
  | c0 :: cx :: t =>
    if c0.toNat = 48 ∧ (cx.toNat = 120 ∨ cx.toNat = 88) then
      match scan_hex_digits t 0 0 with
      | (v, _, rest) => Conv.ok (store_unsigned neg v) rest
    else
      match scan_hex_digits (c0 :: cx :: t) 0 0 with
      | (_, 0, _) => Conv.matching_failure
      | (v, _, rest) => Conv.ok (store_unsigned neg v) rest
  | s =>
    match scan_hex_digits s 0 0 with
    | (_, 0, _) => Conv.matching_failure
    | (v, _, rest) => Conv.ok (store_unsigned neg v) rest

/-- One `%x` directive as the `vfscanf` of glibc executes it: skip white
space, fail with an input failure at the end of the input, read an optional
sign, then the digits, and convert them like `strtoul` with base 16. -/
def scan_x (s : List Char) : Conv :=
  match skip_space s with
  | [] => Conv.input_failure
  | c :: t =>
    if c.toNat = 45 then scan_x_body true t
    else if c.toNat = 43 then scan_x_body false t
    else scan_x_body false (c :: t)

/-- The call `sscanf(selection, "%x:%x", &vendor_id, &device_id)`: its return
value (-1 is `EOF`) and the two objects.  An object that was not assigned is
reported as 0; the caller reads the objects only when the return value is
2. -/
def sscanf_x_colon_x (s : List Char) : Int × Nat × Nat :=
  match scan_x s with
  | Conv.input_failure => (-1, 0, 0)
  | Conv.matching_failure => (0, 0, 0)
  | Conv.ok vendor_id rest =>
    match rest with
    | [] => (1, vendor_id, 0)
    | c :: t =>
      if c.toNat = 58 then
        match scan_x t with
        | Conv.ok device_id _ => (2, vendor_id, device_id)
        | _ => (1, vendor_id, 0)
      else (1, vendor_id, 0)

/-! ## Selection of the branch (lines 136-160) -/

/-- Which arm of the `if`/`else if`/`else` chain of lines 136-160 a value of
the selector takes.  The names of the arms are those of the specification. -/
inductive SelectionPolicy where
  /-- Line 136: the selector is the string `list`. -/
  | ListAndTerminate
  /-- Lines 144-147: `sscanf` did not return 2; carries the selector. -/
  | ConfigParseError (raw : String)
  /-- Lines 148-155: `sscanf` returned 2 and assigned the two objects. -/
  | MatchExact (vendor_id : Nat) (device_id : Nat)
  /-- Lines 156-160: the selector is a null pointer. -/
  | AllDevices
deriving DecidableEq, Repr

/-- The tests of lines 136, 141 and 143-144 on the value of `getenv`:
`selection && strcmp(selection, "list") == 0`, then `selection`, then
`sscanf(selection, "%x:%x", ...) != 2`. -/
def selection_policy (selection : Option String) : SelectionPolicy :=
  match selection with
  | none => SelectionPolicy.AllDevices
  | some s =>
    if s = "list" then SelectionPolicy.ListAndTerminate
    else
      match sscanf_x_colon_x s.toList with
      | (matched, vendor_id, device_id) =>
        if matched ≠ 2 then SelectionPolicy.ConfigParseError s
        else SelectionPolicy.MatchExact vendor_id device_id

/-! ## The loops -/

/-- A loop `for (i = ...; ...; ++i) dst[i] = src[i]` with `n` iterations left,
the next index `i` and the destination array so far (lines 158-159 and
175-177).  `none` is an access outside one of the two arrays. -/
def copy_loop (src : List VkPhysicalDevice) :
    Nat → Nat → List VkPhysicalDevice → Option (List VkPhysicalDevice)
  | 0, _, dst => some dst
  | n + 1, i, dst =>
    match src[i]? with
    | none => none
    | some dev =>
      if i < dst.length then copy_loop src n (i + 1) (dst.set i dev) else none

/-- The loop of lines 149-155 with `n` iterations left, the next index `i`,
and the pair of `selected_physical_devices` and
`selected_physical_device_count` so far.  `props` is the call through
`info.GetPhysicalDeviceProperties`.  `none` is an access outside
`physical_devices` or `selected_physical_devices`. -/
def exact_match_loop (props : VkPhysicalDevice → VkPhysicalDeviceProperties)
    (vendor_id device_id : Nat) (physical_devices : List VkPhysicalDevice) :
    Nat → Nat → List VkPhysicalDevice × Nat → Option (List VkPhysicalDevice × Nat)
  | 0, _, st => some st
  | n + 1, i, (selected_physical_devices, selected_physical_device_count) =>
    match physical_devices[i]? with
    | none => none
    | some dev =>
      let properties := props dev
      if properties.vendorID = vendor_id ∧ properties.deviceID = device_id then
        if selected_physical_device_count < selected_physical_devices.length then
          exact_match_loop props vendor_id device_id physical_devices n (i + 1)
            (selected_physical_devices.set selected_physical_device_count dev,
              selected_physical_device_count + 1)
        else none
      else
        exact_match_loop props vendor_id device_id physical_devices n (i + 1)
          (selected_physical_devices, selected_physical_device_count)

/-! ## Printing -/

/-- The conversion `%x` of an `unsigned`: lower-case hexadecimal digits. -/
def fmt_x (n : Nat) : String :=
  String.mk (Nat.toDigits 16 (n % 2 ^ 32))

/-- The conversion `%d` applied to an `unsigned` argument: the 32 bits read
as a signed integer. -/
def fmt_d (n : Nat) : String :=
  if n % 2 ^ 32 < 2 ^ 31 then toString (n % 2 ^ 32)
  else "-" ++ toString (2 ^ 32 - n % 2 ^ 32)

/-- The `switch` of lines 92-108 on `properties.deviceType`. -/
def type_string (deviceType : Nat) : String :=
  match deviceType with
  | 0 => "other"
  | 1 => "integrated GPU"
  | 2 => "discrete GPU"
  | 3 => "virtual GPU"
  | 4 => "CPU"
  | _ => ""

/-- The function `print_gpu` (lines 86-110): the line written to stderr, or
`none` when `info.GetPhysicalDeviceProperties` is a null pointer. -/
def print_gpu (env : Env) (info : instance_info) (index : Nat)
    (device : VkPhysicalDevice) : Option String :=
  if info.GetPhysicalDeviceProperties = 0 then none
  else
    let properties :=
      env.call_GetPhysicalDeviceProperties info.GetPhysicalDeviceProperties device
    some ("  GPU " ++ fmt_d index ++ ": " ++ fmt_x properties.vendorID ++ ":"
      ++ fmt_x properties.deviceID ++ " \"" ++ properties.deviceName ++ "\" "
      ++ type_string properties.deviceType ++ "\n")

/-- The loop of lines 138-139 with `n` iterations left, the next index `i` and
the lines printed so far; the flag is false when the loop ran into an access
outside `physical_devices` or a call through a null pointer. -/
def list_loop (env : Env) (info : instance_info)
    (physical_devices : List VkPhysicalDevice) :
    Nat → Nat → List String → List String × Bool
  | 0, _, out => (out, true)
  | n + 1, i, out =>
    match physical_devices[i]? with
    | none => (out, false)
    | some dev =>
      match print_gpu env info i dev with
      | none => (out, false)
      | some line => list_loop env info physical_devices n (i + 1) (out ++ [line])

/-! ## The enumeration entry point -/

/-- How a call ended. -/
inductive Termination where
  /-- The function returned this status. -/
  | returned (result : VkResult)
  /-- The function called `exit` with this status. -/
  | exited (status : Int)
  /-- Undefined behaviour: a call through a null function pointer or an access
  outside an allocation. -/
  | undefined
deriving DecidableEq, Repr

/-- The observable result of a call of
`device_select_EnumeratePhysicalDevices`. -/
structure Outcome where
  /-- How the call ended. -/
  term : Termination
  /-- The table `instances` afterwards. -/
  instances : Registry
  /-- The strings written to stderr, in order. -/
  stderr : List String
  /-- The value of `*pPhysicalDeviceCount` afterwards. -/
  pPhysicalDeviceCount : Nat
  /-- The caller's array afterwards; `none` when `pPhysicalDevices` is null. -/
  pPhysicalDevices : Option (List VkPhysicalDevice)
deriving DecidableEq, Repr

/-- Lines 162-178: the warning, then the count or the fill, given the selected
array and count. -/
def write_back (instances : Registry) (selected_physical_devices : List VkPhysicalDevice)
    (selected_physical_device_count : Nat) (pPhysicalDeviceCount : Nat)
    (pPhysicalDevices : Option (List VkPhysicalDevice)) : Outcome :=
  let stderr :=
    if selected_physical_device_count = 0 then
      ["WARNING: selected no devices with MESA_VK_DEVICE_SELECT\n"]
    else []
  match pPhysicalDevices with
  | none =>
    ⟨Termination.returned VK_SUCCESS, instances, stderr,
      selected_physical_device_count, none⟩
  | some buffer =>
    let count :=
      if selected_physical_device_count < pPhysicalDeviceCount then
        selected_physical_device_count
      else pPhysicalDeviceCount
    let result :=
      if selected_physical_device_count < pPhysicalDeviceCount then VK_SUCCESS
      else if selected_physical_device_count > pPhysicalDeviceCount then VK_INCOMPLETE
      else VK_SUCCESS
    match copy_loop selected_physical_devices count 0 buffer with
    | none => ⟨Termination.undefined, instances, stderr, count, some buffer⟩
    | some buffer1 => ⟨Termination.returned result, instances, stderr, count, some buffer1⟩

/-- The function `device_select_EnumeratePhysicalDevices` (lines 112-184).
`pPhysicalDeviceCount` is the value of `*pPhysicalDeviceCount` on entry and
`pPhysicalDevices` the caller's array (`none` for a null pointer). -/
def device_select_EnumeratePhysicalDevices (env : Env) (instances : Registry)
    (inst : VkInstance) (pPhysicalDeviceCount : Nat)
    (pPhysicalDevices : Option (List VkPhysicalDevice)) : Outcome :=
  match Registry.index instances inst with
  | (info, instances) =>
    let stop (term : Termination) (stderr : List String) : Outcome :=
      ⟨term, instances, stderr, pPhysicalDeviceCount, pPhysicalDevices⟩
    if info.EnumeratePhysicalDevices = 0 then stop Termination.undefined []
    else
      let first := env.call_EnumeratePhysicalDevices info.EnumeratePhysicalDevices inst 0 false
      if first.result ≠ VK_SUCCESS then stop (Termination.returned first.result) []
      else if ¬ (env.calloc_physical_devices = true ∧
          env.calloc_selected_physical_devices = true) then
        stop (Termination.returned VK_ERROR_OUT_OF_HOST_MEMORY) []
      else
        let second :=
          env.call_EnumeratePhysicalDevices info.EnumeratePhysicalDevices inst first.count true
        let physical_devices :=
          (second.devices ++ List.replicate first.count 0).take first.count
        let selected_physical_devices : List VkPhysicalDevice :=
          List.replicate first.count 0
        if second.result ≠ VK_SUCCESS then stop (Termination.returned second.result) []
        else
          let physical_device_count := second.count
          match selection_policy env.selection with
          | SelectionPolicy.ListAndTerminate =>
            match list_loop env info physical_devices physical_device_count 0
                ["selectable devices:\n"] with
            | (out, true) => stop (Termination.exited 0) out
            | (out, false) => stop Termination.undefined out
          | SelectionPolicy.ConfigParseError raw =>
            stop (Termination.exited 1)
              ["failed to parse MESA_VK_DEVICE_SELECT: \"" ++ raw ++ "\"\n"]
          | SelectionPolicy.MatchExact vendor_id device_id =>
            if info.GetPhysicalDeviceProperties = 0 ∧ 0 < physical_device_count then
              stop Termination.undefined []
            else
              match exact_match_loop
                  (env.call_GetPhysicalDeviceProperties info.GetPhysicalDeviceProperties)
                  vendor_id device_id physical_devices physical_device_count 0
                  (selected_physical_devices, 0) with
              | none => stop Termination.undefined []
              | some (selected_physical_devices, selected_physical_device_count) =>
                write_back instances selected_physical_devices
                  selected_physical_device_count pPhysicalDeviceCount pPhysicalDevices
          | SelectionPolicy.AllDevices =>
            match copy_loop physical_devices physical_device_count 0
                selected_physical_devices with
            | none => stop Termination.undefined []
            | some selected_physical_devices =>
              write_back instances selected_physical_devices physical_device_count
                pPhysicalDeviceCount pPhysicalDevices

/-! ## The other entry points -/

/-- Header constant `VK_STRUCTURE_TYPE_LOADER_INSTANCE_CREATE_INFO`
(vulkan_core.h, not among the sources). -/
def VK_STRUCTURE_TYPE_LOADER_INSTANCE_CREATE_INFO : Nat := 47

/-- Header constant `VK_LAYER_LINK_INFO` of the enum `VkLayerFunction`
(vk_layer.h, not among the sources). -/
def VK_LAYER_LINK_INFO : Nat := 0

/-- The fields of `VkLayerInstanceLink` (vk_layer.h) that the layer reads; the
`pNext` field is the tail of the list that holds the link. -/
structure VkLayerInstanceLink where
  pfnNextGetInstanceProcAddr : FnPtr
  pfnNextGetPhysicalDeviceProcAddr : FnPtr
deriving DecidableEq, Repr

/-- One element of the `pNext` chain of `VkInstanceCreateInfo`, read as a
`VkLayerInstanceCreateInfo` (line 48).  `pLayerInfo` is the linked list
`u.pLayerInfo`; the empty list is a null pointer. -/
structure VkLayerInstanceCreateInfo where
  sType : Nat
  function : Nat
  pLayerInfo : List VkLayerInstanceLink
deriving DecidableEq, Repr

/-- The addresses at which the layer's own functions are loaded. -/
structure LayerAddresses where
  CreateInstance : FnPtr
  DestroyInstance : FnPtr
  device_select_EnumeratePhysicalDevices : FnPtr
  get_instance_proc_addr : FnPtr
  get_pdevice_proc_addr : FnPtr
deriving DecidableEq, Repr

/-- The code of the next layer that the entry points other than the
enumeration reach through function pointers. -/
structure NextLayer where
  /-- Calling the code at a (non-null) address as `PFN_vkGetInstanceProcAddr`
  on an instance and a name. -/
  call_GetInstanceProcAddr : FnPtr → VkInstance → String → FnPtr
  /-- Calling the code at a (non-null) address as
  `PFN_GetPhysicalDeviceProcAddr` on an instance and a name. -/
  call_GetPhysicalDeviceProcAddr : FnPtr → VkInstance → String → FnPtr
  /-- Calling the code at a (non-null) address as `PFN_vkCreateInstance`: the
  status returned and the handle stored in `*pInstance`. -/
  call_CreateInstance : FnPtr → VkResult × VkInstance

/-- The statement `instances.erase(instances.find(instance))` (line 81). -/
def Registry.erase (instances : Registry) (inst : VkInstance) : Registry :=
  instances.filter (fun entry => entry.1 != inst)

/-- The statement `instances[*pInstance] = info` (line 74): the record of the
key is created or overwritten. -/
def Registry.assign (instances : Registry) (inst : VkInstance) (info : instance_info) :
    Registry :=
  (inst, info) :: Registry.erase instances inst

/-- The loop of lines 48-50: the first element of the chain whose `sType` is
`VK_STRUCTURE_TYPE_LOADER_INSTANCE_CREATE_INFO` and whose `function` is
`VK_LAYER_LINK_INFO`; `none` when the loop ends with a null `chain_info`. -/
def find_chain_info : List VkLayerInstanceCreateInfo → Option VkLayerInstanceCreateInfo
  | [] => none
  | chain_info :: rest =>
    if chain_info.sType = VK_STRUCTURE_TYPE_LOADER_INSTANCE_CREATE_INFO ∧
        chain_info.function = VK_LAYER_LINK_INFO then some chain_info
    else find_chain_info rest

/-- The statement of line 62 on the chain: the element found by the loop of
lines 48-50 has its `u.pLayerInfo` advanced to the next link. -/
def advance_chain_info : List VkLayerInstanceCreateInfo → List VkLayerInstanceCreateInfo
  | [] => []
  | chain_info :: rest =>
    if chain_info.sType = VK_STRUCTURE_TYPE_LOADER_INSTANCE_CREATE_INFO ∧
        chain_info.function = VK_LAYER_LINK_INFO then
      ⟨chain_info.sType, chain_info.function, chain_info.pLayerInfo.tail⟩ :: rest
    else chain_info :: advance_chain_info rest

/-- The observable result of a call of `CreateInstance`. -/
structure CreateOutcome where
  /-- How the call ended. -/
  term : Termination
  /-- The table `instances` afterwards. -/
  instances : Registry
  /-- The `pNext` chain of `*pCreateInfo` afterwards. -/
  pNext : List VkLayerInstanceCreateInfo
  /-- The value of `*pInstance` afterwards. -/
  pInstance : VkInstance
deriving DecidableEq, Repr

/-- The function `CreateInstance` (lines 42-76).  `pNext` is the chain of
`*pCreateInfo` and `pInstance` the value of `*pInstance` on entry.  The
outcome is `undefined` when no link element is found (null `chain_info`),
when its `u.pLayerInfo` is null (the assertion of line 52), or when the next
`GetInstanceProcAddr` is null. -/
def CreateInstance (next : NextLayer) (instances : Registry)
    (pNext : List VkLayerInstanceCreateInfo) (pInstance : VkInstance) : CreateOutcome :=
  match find_chain_info pNext with
  | none => ⟨Termination.undefined, instances, pNext, pInstance⟩
  | some chain_info =>
    match chain_info.pLayerInfo with
    | [] => ⟨Termination.undefined, instances, pNext, pInstance⟩
    | link :: _ =>
      let GetInstanceProcAddr := link.pfnNextGetInstanceProcAddr
      let GetPhysicalDeviceProcAddr := link.pfnNextGetPhysicalDeviceProcAddr
      if GetInstanceProcAddr = 0 then ⟨Termination.undefined, instances, pNext, pInstance⟩
      else
        let fpCreateInstance :=
          next.call_GetInstanceProcAddr GetInstanceProcAddr 0 "vkCreateInstance"
        if fpCreateInstance = 0 then
          ⟨Termination.returned VK_ERROR_INITIALIZATION_FAILED, instances, pNext, pInstance⟩
        else
          match next.call_CreateInstance fpCreateInstance with
          | (result, created) =>
            if result ≠ VK_SUCCESS then
              ⟨Termination.returned result, instances, advance_chain_info pNext, created⟩
            else
              let info : instance_info :=
                ⟨next.call_GetInstanceProcAddr GetInstanceProcAddr created "vkDestroyInstance",
                  next.call_GetInstanceProcAddr GetInstanceProcAddr created
                    "vkEnumeratePhysicalDevices",
                  GetInstanceProcAddr, GetPhysicalDeviceProcAddr,
                  next.call_GetInstanceProcAddr GetInstanceProcAddr created
                    "vkGetPhysicalDeviceProperties"⟩
              ⟨Termination.returned VK_SUCCESS, Registry.assign instances created info,
                advance_chain_info pNext, created⟩

/-- The function `DestroyInstance` (lines 78-83): whether the call returned
(`false` is a call through a null `info.DestroyInstance`), and the table
afterwards. -/
def DestroyInstance (instances : Registry) (inst : VkInstance) : Bool × Registry :=
  match Registry.index instances inst with
  | (info, instances) =>
    (decide (info.DestroyInstance ≠ 0), Registry.erase instances inst)

/-- The function `get_pdevice_proc_addr` (lines 186-190): the pointer
returned (`none` is a call through a null `info.GetPhysicalDeviceProcAddr`),
and the table afterwards. -/
def get_pdevice_proc_addr (next : NextLayer) (instances : Registry) (inst : VkInstance)
    (name : String) : Option FnPtr × Registry :=
  match Registry.index instances inst with
  | (info, instances) =>
    if info.GetPhysicalDeviceProcAddr = 0 then (none, instances)
    else
      (some (next.call_GetPhysicalDeviceProcAddr info.GetPhysicalDeviceProcAddr inst name),
        instances)

/-- The function `get_instance_proc_addr` (lines 192-203): the pointer
returned (`none` is a call through a null `info.GetInstanceProcAddr`), and the
table afterwards. -/
def get_instance_proc_addr (self : LayerAddresses) (next : NextLayer) (instances : Registry)
    (inst : VkInstance) (name : String) : Option FnPtr × Registry :=
  if name = "vkCreateInstance" then (some self.CreateInstance, instances)
  else if name = "vkDestroyInstance" then (some self.DestroyInstance, instances)
  else if name = "vkEnumeratePhysicalDevices" then
    (some self.device_select_EnumeratePhysicalDevices, instances)
  else
    match Registry.index instances inst with
    | (info, instances) =>
      if info.GetInstanceProcAddr = 0 then (none, instances)
      else (some (next.call_GetInstanceProcAddr info.GetInstanceProcAddr inst name), instances)

/-- The fields of `VkNegotiateLayerInterface` (vk_layer.h) other than `sType`
and `pNext`. -/
structure VkNegotiateLayerInterface where
  loaderLayerInterfaceVersion : Nat
  pfnGetInstanceProcAddr : FnPtr
  pfnGetDeviceProcAddr : FnPtr
  pfnGetPhysicalDeviceProcAddr : FnPtr
deriving DecidableEq, Repr

/-- The function `vkNegotiateLoaderLayerInterfaceVersion` (lines 207-217): the
status returned and `*pVersionStruct` afterwards. -/
def vkNegotiateLoaderLayerInterfaceVersion (self : LayerAddresses)
    (pVersionStruct : VkNegotiateLayerInterface) : VkResult × VkNegotiateLayerInterface :=
  if pVersionStruct.loaderLayerInterfaceVersion < 2 then
    (VK_ERROR_INITIALIZATION_FAILED, pVersionStruct)
  else
    (VK_SUCCESS,
      ⟨2, self.get_instance_proc_addr, pVersionStruct.pfnGetDeviceProcAddr,
        self.get_pdevice_proc_addr⟩)

/-! ## Specification-side definitions -/

/-- The test of lines 151-152 as a predicate on devices. -/
def matches_pair (props : VkPhysicalDevice → VkPhysicalDeviceProperties)
    (vendor_id device_id : Nat) (dev : VkPhysicalDevice) : Bool :=
  decide ((props dev).vendorID = vendor_id ∧ (props dev).deviceID = device_id)

/-- The filtered list of the specification (section 4.3): all devices for
`AllDevices`, the devices whose identifier pair equals the target, in their
original order, for `MatchExact`; the other two policies produce no list. -/
def spec_filtered (props : VkPhysicalDevice → VkPhysicalDeviceProperties) :
    SelectionPolicy → List VkPhysicalDevice → Option (List VkPhysicalDevice)
  | SelectionPolicy.AllDevices, devs => some devs
  | SelectionPolicy.MatchExact vendor_id device_id, devs =>
    some (devs.filter (matches_pair props vendor_id device_id))
  | _, _ => none

/-- The underlying source answers one invocation: the handle is registered
with record `info`, whose enumeration and property pointers are non-null; the
count query succeeds; both allocations succeed; the fill query, given the
capacity that the count query reported, succeeds, stores the list `devs` and
reports its length, which does not exceed that capacity. -/
def source_succeeds (env : Env) (instances : Registry) (inst : VkInstance)
    (info : instance_info) (devs : List VkPhysicalDevice) : Prop :=
  instances.lookup inst = some info ∧
  info.EnumeratePhysicalDevices ≠ 0 ∧
  info.GetPhysicalDeviceProperties ≠ 0 ∧
  (env.call_EnumeratePhysicalDevices info.EnumeratePhysicalDevices inst 0 false).result
    = VK_SUCCESS ∧
  env.calloc_physical_devices = true ∧
  env.calloc_selected_physical_devices = true ∧
  env.call_EnumeratePhysicalDevices info.EnumeratePhysicalDevices inst
      (env.call_EnumeratePhysicalDevices info.EnumeratePhysicalDevices inst 0 false).count true
    = ⟨VK_SUCCESS, devs.length, devs⟩ ∧
  devs.length ≤
    (env.call_EnumeratePhysicalDevices info.EnumeratePhysicalDevices inst 0 false).count

instance decidable_source_succeeds (env : Env) (instances : Registry) (inst : VkInstance)
    (info : instance_info) (devs : List VkPhysicalDevice) :
    Decidable (source_succeeds env instances inst info devs) := by
  unfold source_succeeds
  infer_instance

/-- The hexadecimal digits of the specification (section 4.2), in either
case: the value of a digit is its position in the string of digits. -/
def spec_hex_digit (c : Char) : Option Nat :=
  if c ∈ "0123456789abcdef".toList then some ("0123456789abcdef".toList.indexOf c)
  else if c ∈ "ABCDEF".toList then some (10 + "ABCDEF".toList.indexOf c)
  else none

/-- Value of a string of hexadecimal digits read most significant digit first,
starting from `acc`; `none` when some character is not a digit. -/
def spec_hex_acc : List Char → Nat → Option Nat
  | [], acc => some acc
  | c :: t, acc =>
    match spec_hex_digit c with
    | some v => spec_hex_acc t (16 * acc + v)
    | none => none

/-- The number that a string renders in hexadecimal without prefix: the string
is not empty and consists of digits only. -/
def spec_hex_value (s : List Char) : Option Nat :=
  match s with
  | [] => none
  | c :: t => spec_hex_acc (c :: t) 0

/-- The unread input stops a run of digits: it is empty or starts with a
character that is neither a digit nor the letter of a `0x` prefix. -/
def stops_digits (rest : List Char) : Prop :=
  match rest with
  | [] => True
  | c :: _ => hexval c = none ∧ c.toNat ≠ 120 ∧ c.toNat ≠ 88

/-- White space of the specification's grammar: space, tab, line feed,
vertical tab, form feed, carriage return. -/
def spec_blank (c : Char) : Prop :=
  c = Char.ofNat 32 ∨ c = Char.ofNat 9 ∨ c = Char.ofNat 10 ∨ c = Char.ofNat 11
    ∨ c = Char.ofNat 12 ∨ c = Char.ofNat 13

/-- A hexadecimal integer as `%x` reads it: an optional sign followed either
by a non-empty string of hexadecimal digits, or by `0x` or `0X` and a string
of hexadecimal digits that may be empty. -/
def spec_item (item : List Char) : Prop :=
  ∃ sign pre ds : List Char, item = sign ++ pre ++ ds ∧
    (sign = [] ∨ sign = ['+'] ∨ sign = ['-']) ∧
    ((pre = [] ∧ (spec_hex_value ds).isSome = true) ∨
      ((pre = ['0', 'x'] ∨ pre = ['0', 'X']) ∧ (spec_hex_acc ds 0).isSome = true))

/-- The conditions of `spec_item` on the part of an item after the sign. -/
def item_body (pre ds : List Char) : Prop :=
  (pre = [] ∧ (spec_hex_value ds).isSome = true) ∨
    ((pre = ['0', 'x'] ∨ pre = ['0', 'X']) ∧ (spec_hex_acc ds 0).isSome = true)

/-- The string begins with two hexadecimal integers separated by a colon, each
possibly preceded by white space; anything may follow the second. -/
def spec_begins_with_pair (s : List Char) : Prop :=
  ∃ ws1 item1 ws2 item2 rest : List Char,
    s = ws1 ++ item1 ++ [':'] ++ ws2 ++ item2 ++ rest ∧
    (∀ c ∈ ws1, spec_blank c) ∧ spec_item item1 ∧
    (∀ c ∈ ws2, spec_blank c) ∧ spec_item item2

/-- The reading of "exactly two colon-separated hexadecimal unsigned integers
each fitting in 32 bits" (specification, section 4.2): the text before the
first colon and the text after it both render a number below 2^32; `none`
when the string is not of that form. -/
def spec_pair (s : List Char) : Option (Nat × Nat) :=
  match s.span (fun c => c != ':') with
  | (_, []) => none
  | (a, _ :: b) =>
    match spec_hex_value a, spec_hex_value b with
    | some v, some d => if v < 2 ^ 32 ∧ d < 2 ^ 32 then some (v, d) else none
    | _, _ => none

/-- The line that `print_gpu` writes for a device when the listing gives it
the index `index`: the index in decimal, the vendor and device identifiers in
hexadecimal, the name in quotes and the type string. -/
def list_line (props : VkPhysicalDevice → VkPhysicalDeviceProperties) (index : Nat)
    (dev : VkPhysicalDevice) : String :=
  "  GPU " ++ fmt_d index ++ ": " ++ fmt_x (props dev).vendorID ++ ":"
    ++ fmt_x (props dev).deviceID ++ " \"" ++ (props dev).deviceName ++ "\" "
    ++ type_string (props dev).deviceType ++ "\n"

/-- A listing of the devices in order, one line each, in which the first
device carries the index `first` and each following device the next index. -/
def spec_listing (props : VkPhysicalDevice → VkPhysicalDeviceProperties) :
    Nat → List VkPhysicalDevice → List String
  | _, [] => []
  | first, dev :: rest => list_line props first dev :: spec_listing props (first + 1) rest

/-- One call of an entry point of the layer, with its arguments. -/
inductive Call where
  | CreateInstance (pNext : List VkLayerInstanceCreateInfo) (pInstance : VkInstance)
  | DestroyInstance (inst : VkInstance)
  | EnumeratePhysicalDevices (inst : VkInstance) (pPhysicalDeviceCount : Nat)
      (pPhysicalDevices : Option (List VkPhysicalDevice))
  | get_instance_proc_addr (inst : VkInstance) (name : String)
  | get_pdevice_proc_addr (inst : VkInstance) (name : String)

/-- What a completed call means for the set of handles that were created and
not yet destroyed through the layer. -/
inductive Lifecycle where
  /-- A successful `CreateInstance` that produced this handle. -/
  | created (inst : VkInstance)
  /-- A `DestroyInstance` of this handle. -/
  | destroyed (inst : VkInstance)
  /-- Any other completed call, a failed creation included. -/
  | unchanged
deriving DecidableEq, Repr

/-- One step of a run: a call together with the environment and the next
layer as they are at the time of the call. -/
structure Step where
  env : Env
  next : NextLayer
  call : Call

/-- Runs one call on the table.  `none` when the call does not return (it ends
the process or runs into undefined behaviour); otherwise the table afterwards
and the lifecycle event of the call. -/
def step (self : LayerAddresses) (instances : Registry) (s : Step) :
    Option (Registry × Lifecycle) :=
  match s.call with
  | Call.CreateInstance pNext pInstance =>
    match (CreateInstance s.next instances pNext pInstance).term with
    | Termination.returned result =>
      some ((CreateInstance s.next instances pNext pInstance).instances,
        if result = VK_SUCCESS then
          Lifecycle.created (CreateInstance s.next instances pNext pInstance).pInstance
        else Lifecycle.unchanged)
    | _ => none
  | Call.DestroyInstance inst =>
    match DestroyInstance instances inst with
    | (true, after) => some (after, Lifecycle.destroyed inst)
    | (false, _) => none
  | Call.EnumeratePhysicalDevices inst count buffer =>
    match (device_select_EnumeratePhysicalDevices s.env instances inst count buffer).term with
    | Termination.returned _ =>
      some ((device_select_EnumeratePhysicalDevices s.env instances inst count
        buffer).instances, Lifecycle.unchanged)
    | _ => none
  | Call.get_instance_proc_addr inst name =>
    match get_instance_proc_addr self s.next instances inst name with
    | (some _, after) => some (after, Lifecycle.unchanged)
    | (none, _) => none
  | Call.get_pdevice_proc_addr inst name =>
    match get_pdevice_proc_addr s.next instances inst name with
    | (some _, after) => some (after, Lifecycle.unchanged)
    | (none, _) => none

/-- The handles created and not yet destroyed through the layer, after one
more lifecycle event (specification, section 3). -/
def spec_live (live : List VkInstance) : Lifecycle → List VkInstance
  | Lifecycle.created inst => inst :: live
  | Lifecycle.destroyed inst => live.filter (fun h => h != inst)
  | Lifecycle.unchanged => live

/-- Runs a finite sequence of calls from a table and a set of live handles;
`none` when one of the calls does not return. -/
def run (self : LayerAddresses) :
    List Step → Registry → List VkInstance → Option (Registry × List VkInstance)
  | [], instances, live => some (instances, live)
  | s :: rest, instances, live =>
    match step self instances s with
    | none => none
    | some (after, event) => run self rest after (spec_live live event)

/-! ## Example environments -/

/-- The registry used in the examples: handle 7 with five non-null pointers. -/
def example_instances : Registry :=
  [(7, ⟨1, 2, 3, 4, 5⟩)]

/-- The record stored for handle 7 in `example_instances`. -/
def example_info : instance_info :=
  ⟨1, 2, 3, 4, 5⟩

/-- Properties of the devices of the specification's end-to-end example:
handles 1 and 3 are `(0x10de, 0x1e04)` devices named A and C, handle 2 is the
`(0x1002, 0x731f)` device named B. -/
def example_props (dev : VkPhysicalDevice) : VkPhysicalDeviceProperties :=
  if dev = 2 then ⟨2, 0x1002, 0x731f, "B"⟩
  else if dev = 3 then ⟨2, 0x10de, 0x1e04, "C"⟩
  else ⟨2, 0x10de, 0x1e04, "A"⟩

/-- An environment whose source follows the two-phase protocol over the fixed
list `devs`, with the given selector; both allocations succeed. -/
def example_env (selection : Option String) (devs : List VkPhysicalDevice) : Env :=
  ⟨selection, true, true,
    fun _ _ count buffer =>
      if buffer then
        ⟨if devs.length ≤ count then VK_SUCCESS else VK_INCOMPLETE,
          min count devs.length, devs.take count⟩
      else ⟨VK_SUCCESS, devs.length, []⟩,
    fun _ dev => example_props dev⟩

/-- An environment whose source answers the count query with status
`count_status` (reporting 3 devices) and the fill query with status
`fill_status`; the selector is absent and both allocations succeed. -/
def failing_env (count_status fill_status : VkResult) : Env :=
  ⟨none, true, true,
    fun _ _ _ buffer =>
      if buffer then ⟨fill_status, 3, [1, 2, 3]⟩ else ⟨count_status, 3, []⟩,
    fun _ dev => example_props dev⟩

/-- An environment whose source reports 3 devices to the count query and then
stores only handles 1 and 3 in the fill query, reporting 2; the selector is
`10de:1e04` and both allocations succeed. -/
def shrinking_env : Env :=
  ⟨some "10de:1e04", true, true,
    fun _ _ _ buffer =>
      if buffer then ⟨VK_SUCCESS, 2, [1, 3]⟩ else ⟨VK_SUCCESS, 3, []⟩,
    fun _ dev => example_props dev⟩

/-- The addresses of the layer's functions used in the examples. -/
def example_self : LayerAddresses :=
  ⟨101, 102, 103, 104, 105⟩

/-- A next layer for the examples: its `GetInstanceProcAddr` resolves
`vkCreateInstance` to address 1 and every other name to the length of the
name, its `GetPhysicalDeviceProcAddr` resolves every name to 9, and its
`vkCreateInstance` succeeds with the handle 7. -/
def example_next : NextLayer :=
  ⟨fun _ _ name => if name = "vkCreateInstance" then 1 else name.length,
    fun _ _ _ => 9,
    fun _ => (VK_SUCCESS, 7)⟩

/-- A next layer whose `vkCreateInstance` fails with status -3. -/
def failing_next : NextLayer :=
  ⟨fun _ _ name => if name = "vkCreateInstance" then 1 else name.length,
    fun _ _ _ => 9,
    fun _ => (-3, 0)⟩

/-- The `pNext` chain that a loader passes: one foreign element followed by
the link element with one link. -/
def example_chain : List VkLayerInstanceCreateInfo :=
  [⟨1000, 0, []⟩, ⟨VK_STRUCTURE_TYPE_LOADER_INSTANCE_CREATE_INFO, VK_LAYER_LINK_INFO, [⟨3, 4⟩]⟩]

/-! ## Lemmas on lists, loops and the scanner -/

theorem take_succ_set {α : Type} (l : List α) (k : Nat) (x : α) (h : k < l.length) :
    (l.set k x).take (k + 1) = l.take k ++ [x] := by
  apply List.ext_getElem?
  intro j
  simp only [List.getElem?_take, List.getElem?_append, List.getElem?_set, List.length_take]
  by_cases hj : j < k
  · have : ¬ k = j := by omega
    simp [hj, this, Nat.min_eq_left (Nat.le_of_lt h)]
    omega
  · by_cases hjk : j = k
    · subst hjk; simp [h, Nat.min_eq_left (Nat.le_of_lt h)]
    · have : ¬ j < k + 1 := by omega
      simp [this, hj, Nat.min_eq_left (Nat.le_of_lt h)]
      omega

theorem drop_set_lt {α : Type} (l : List α) (k m : Nat) (x : α) (h : k < m) :
    (l.set k x).drop m = l.drop m := by
  apply List.ext_getElem?
  intro j
  simp only [List.getElem?_drop, List.getElem?_set]
  have : ¬ k = m + j := by omega
  simp [this]

theorem copy_loop_eq (src : List VkPhysicalDevice) :
    ∀ (n i : Nat) (dst : List VkPhysicalDevice), i + n ≤ src.length → i + n ≤ dst.length →
      copy_loop src n i dst = some (dst.take i ++ (src.drop i).take n ++ dst.drop (i + n)) := by
  intro n
  induction n with
  | zero => intro i dst _ _; simp [copy_loop]
  | succ n ih =>
    intro i dst hs hd
    have hi : i < src.length := by omega
    have hid : i < dst.length := by omega
    rw [copy_loop]
    simp only [List.getElem?_eq_getElem hi, hid, if_true]
    rw [ih (i + 1) _ (by omega) (by simp; omega)]
    congr 1
    rw [take_succ_set _ _ _ hid, drop_set_lt _ _ _ _ (by omega)]
    have : i + 1 + n = i + (n + 1) := by omega
    rw [this]
    have hdrop : List.drop i src = src[i] :: List.drop (i + 1) src := by
      exact List.drop_eq_getElem_cons hi
    rw [hdrop, List.take_succ_cons]
    simp

theorem exact_match_loop_eq (props : VkPhysicalDevice → VkPhysicalDeviceProperties)
    (v d : Nat) (pd : List VkPhysicalDevice) :
    ∀ (n i : Nat) (sel : List VkPhysicalDevice) (k : Nat),
      i + n ≤ pd.length → k ≤ i → pd.length ≤ sel.length →
      exact_match_loop props v d pd n i (sel, k) =
        some (sel.take k ++ ((pd.drop i).take n).filter (matches_pair props v d)
            ++ sel.drop (k + (((pd.drop i).take n).filter (matches_pair props v d)).length),
          k + (((pd.drop i).take n).filter (matches_pair props v d)).length) := by
  intro n
  induction n with
  | zero => intro i sel k _ _ _; simp [exact_match_loop]
  | succ n ih =>
    intro i sel k hi hk hlen
    have hip : i < pd.length := by omega
    have hks : k < sel.length := by omega
    have hdrop : List.drop i pd = pd[i] :: List.drop (i + 1) pd :=
      List.drop_eq_getElem_cons hip
    rw [exact_match_loop]
    simp only [List.getElem?_eq_getElem hip]
    rw [hdrop, List.take_succ_cons]
    by_cases hm : (props pd[i]).vendorID = v ∧ (props pd[i]).deviceID = d
    · have hmp : matches_pair props v d pd[i] = true := by simp [matches_pair, hm]
      rw [if_pos hm, if_pos hks, ih (i + 1) _ (k + 1) (by omega) (by omega) (by simp; omega)]
      rw [List.filter_cons_of_pos hmp, take_succ_set _ _ _ hks,
        drop_set_lt _ _ _ _ (by omega)]
      simp only [List.length_cons, List.append_assoc, List.singleton_append]
      have e : k + 1 + (List.filter (matches_pair props v d) (List.take n (List.drop (i + 1) pd))).length
          = k + ((List.filter (matches_pair props v d) (List.take n (List.drop (i + 1) pd))).length + 1) := by
        omega
      rw [e]
    · have hmp : ¬ matches_pair props v d pd[i] = true := by simp [matches_pair, hm]
      rw [if_neg hm, ih (i + 1) sel k (by omega) (by omega) hlen]
      rw [List.filter_cons_of_neg hmp]

theorem fetched_array (devs : List VkPhysicalDevice) (n : Nat) (h : devs.length ≤ n) :
    (devs ++ List.replicate n 0).take n = devs ++ List.replicate (n - devs.length) 0 := by
  rw [List.take_append_eq_append_take, List.take_of_length_le h]
  simp

theorem run_eq (env : Env) (instances : Registry) (inst : VkInstance)
    (info : instance_info) (devs fl : List VkPhysicalDevice) (N : Nat)
    (buf : Option (List VkPhysicalDevice))
    (hsrc : source_succeeds env instances inst info devs)
    (hfl : spec_filtered (env.call_GetPhysicalDeviceProperties info.GetPhysicalDeviceProperties)
      (selection_policy env.selection) devs = some fl) :
    ∃ pad, device_select_EnumeratePhysicalDevices env instances inst N buf
      = write_back instances (fl ++ pad) fl.length N buf := by
  obtain ⟨hreg, he, hp, h1, hc1, hc2, h2, hle⟩ := hsrc
  generalize hn : (env.call_EnumeratePhysicalDevices info.EnumeratePhysicalDevices inst 0 false).count = n at h2 hle
  have hpd := fetched_array devs n hle
  unfold device_select_EnumeratePhysicalDevices
  simp only [Registry.index, hreg, he, h1, hc1, hc2, hn, h2, hpd, if_false, ne_eq,
    not_true_eq_false, and_self, not_false_eq_true, if_true]
  cases hpol : selection_policy env.selection with
  | ListAndTerminate => rw [hpol] at hfl; simp [spec_filtered] at hfl
  | ConfigParseError raw => rw [hpol] at hfl; simp [spec_filtered] at hfl
  | MatchExact v d =>
    rw [hpol] at hfl
    simp only [spec_filtered, Option.some.injEq] at hfl
    have hloop := exact_match_loop_eq
      (env.call_GetPhysicalDeviceProperties info.GetPhysicalDeviceProperties) v d
      (devs ++ List.replicate (n - devs.length) 0) devs.length 0 (List.replicate n 0) 0
      (by simp) (by omega) (by simp; omega)
    simp only [List.drop_zero, List.take_left', List.take_zero, List.nil_append,
      Nat.zero_add] at hloop
    simp only [hp, false_and, if_false, hloop, hfl]
    exact ⟨_, rfl⟩
  | AllDevices =>
    rw [hpol] at hfl
    simp only [spec_filtered, Option.some.injEq] at hfl
    have hloop := copy_loop_eq (devs ++ List.replicate (n - devs.length) 0) devs.length 0
      (List.replicate n 0) (by simp) (by simp; omega)
    simp only [List.drop_zero, List.take_left', List.take_zero, List.nil_append,
      Nat.zero_add] at hloop
    simp only [hloop, ← hfl]
    exact ⟨_, rfl⟩

theorem write_back_count (instances : Registry) (sel : List VkPhysicalDevice) (k N : Nat) :
    write_back instances sel k N none =
      ⟨Termination.returned VK_SUCCESS, instances,
        if k = 0 then ["WARNING: selected no devices with MESA_VK_DEVICE_SELECT\n"] else [],
        k, none⟩ := by
  simp [write_back]

theorem write_back_fill (instances : Registry) (fl pad buffer : List VkPhysicalDevice) (N : Nat)
    (hcap : min N fl.length ≤ buffer.length) :
    write_back instances (fl ++ pad) fl.length N (some buffer) =
      ⟨Termination.returned (if N < fl.length then VK_INCOMPLETE else VK_SUCCESS), instances,
        if fl.length = 0 then ["WARNING: selected no devices with MESA_VK_DEVICE_SELECT\n"] else [],
        min N fl.length, some (fl.take N ++ buffer.drop (min N fl.length))⟩ := by
  unfold write_back
  have hcount : (if fl.length < N then fl.length else N) = min N fl.length := by
    split <;> omega
  have hres : (if fl.length < N then VK_SUCCESS else if fl.length > N then VK_INCOMPLETE
      else VK_SUCCESS) = (if N < fl.length then VK_INCOMPLETE else VK_SUCCESS) := by
    by_cases h1 : fl.length < N
    · have : ¬ N < fl.length := by omega
      simp [h1, this]
    · simp [h1]
  simp only [hcount, hres]
  have hloop := copy_loop_eq (fl ++ pad) (min N fl.length) 0 buffer
    (by simp only [List.length_append, Nat.zero_add]; omega) (by omega)
  simp only [List.drop_zero, List.take_zero, List.nil_append, Nat.zero_add] at hloop
  rw [hloop]
  have : List.take (min N fl.length) (fl ++ pad) = List.take N fl := by
    rw [List.take_append_of_le_length (Nat.min_le_right _ _)]
    by_cases h : N ≤ fl.length
    · rw [Nat.min_eq_left h]
    · rw [Nat.min_eq_right (by omega), List.take_of_length_le (by omega),
        List.take_of_length_le (by omega)]
  rw [this]

theorem char_eq_of_toNat (c : Char) (n : Nat) (h : c.toNat = n) : c = Char.ofNat n := by
  rw [← h, Char.ofNat_toNat]

theorem hexval_eq_spec (c : Char) : hexval c = spec_hex_digit c := by
  by_cases h : (48 ≤ c.toNat ∧ c.toNat ≤ 57) ∨ (97 ≤ c.toNat ∧ c.toNat ≤ 102)
      ∨ (65 ≤ c.toNat ∧ c.toNat ≤ 70)
  · have hc : ∃ n, c.toNat = n ∧ ((48 ≤ n ∧ n ≤ 57) ∨ (97 ≤ n ∧ n ≤ 102) ∨ (65 ≤ n ∧ n ≤ 70)) :=
      ⟨_, rfl, h⟩
    obtain ⟨n, hn, hr⟩ := hc
    have hce := char_eq_of_toNat c n hn
    subst hce
    rcases hr with ⟨h1, h2⟩ | ⟨h1, h2⟩ | ⟨h1, h2⟩ <;> interval_cases n <;> decide
  · have h1 : hexval c = none := by
      unfold hexval
      simp only [not_or] at h
      simp [h.1, h.2.1, h.2.2]
    have hlow : c ∉ "0123456789abcdef".toList := by
      intro hmem
      have hm := List.mem_map_of_mem Char.toNat hmem
      have hl : List.map Char.toNat "0123456789abcdef".toList
          = List.range' 48 10 ++ List.range' 97 6 := by decide
      rw [hl] at hm
      simp only [List.mem_append, List.mem_range'_1] at hm
      omega
    have hup : c ∉ "ABCDEF".toList := by
      intro hmem
      have hm := List.mem_map_of_mem Char.toNat hmem
      have hl : List.map Char.toNat "ABCDEF".toList = List.range' 65 6 := by decide
      rw [hl] at hm
      simp only [List.mem_range'_1] at hm
      omega
    rw [h1]
    unfold spec_hex_digit
    rw [if_neg hlow, if_neg hup]

theorem hexval_some_facts (c : Char) (v : Nat) (h : hexval c = some v) :
    isspace c = false ∧ c.toNat ≠ 45 ∧ c.toNat ≠ 43 ∧ c.toNat ≠ 120 ∧ c.toNat ≠ 88
      ∧ c.toNat ≠ 58 := by
  unfold hexval at h
  have hr : (48 ≤ c.toNat ∧ c.toNat ≤ 57) ∨ (97 ≤ c.toNat ∧ c.toNat ≤ 102)
      ∨ (65 ≤ c.toNat ∧ c.toNat ≤ 70) := by
    by_contra hn
    simp only [not_or] at hn
    simp [hn.1, hn.2.1, hn.2.2] at h
  refine ⟨?_, ?_, ?_, ?_, ?_, ?_⟩
  · unfold isspace
    simp only [Bool.or_eq_false_iff, Bool.and_eq_false_iff, decide_eq_false_iff_not]
    omega
  all_goals omega

theorem scan_hex_digits_spec (ds : List Char) :
    ∀ (acc n v : Nat) (rest : List Char), spec_hex_acc ds acc = some v → stops_digits rest →
      scan_hex_digits (ds ++ rest) acc n = (v, n + ds.length, rest) := by
  induction ds with
  | nil =>
    intro acc n v rest h hrest
    simp only [spec_hex_acc, Option.some.injEq] at h
    subst h
    cases rest with
    | nil => simp [scan_hex_digits]
    | cons c t =>
      simp only [stops_digits] at hrest
      simp [scan_hex_digits, hrest.1]
  | cons c t ih =>
    intro acc n v rest h hrest
    simp only [spec_hex_acc, ← hexval_eq_spec] at h
    cases hc : hexval c with
    | none => simp [hc] at h
    | some d =>
      simp only [hc] at h
      have hstep : scan_hex_digits (c :: t ++ rest) acc n
          = scan_hex_digits (t ++ rest) (16 * acc + d) (n + 1) := by
        simp only [List.cons_append, scan_hex_digits, hc]
        rfl
      rw [hstep, ih _ _ _ _ h hrest]
      simp only [List.length_cons, Prod.mk.injEq, and_true, true_and]
      omega

theorem scan_x_body_spec (neg : Bool) (ds rest : List Char) (v : Nat)
    (h : spec_hex_value ds = some v) (hrest : stops_digits rest) :
    scan_x_body neg (ds ++ rest) = Conv.ok (store_unsigned neg v) rest := by
  cases ds with
  | nil => simp [spec_hex_value] at h
  | cons c t =>
    simp only [spec_hex_value] at h
    have hscan := scan_hex_digits_spec (c :: t) 0 0 v rest h hrest
    simp only [List.length_cons, Nat.zero_add] at hscan
    have hnx : ∀ (cx : Char) (l : List Char), t ++ rest = cx :: l →
        ¬ (cx.toNat = 120 ∨ cx.toNat = 88) := by
      intro cx l hl
      cases t with
      | nil =>
        simp only [List.nil_append] at hl
        subst hl
        simp only [stops_digits] at hrest
        omega
      | cons c2 t2 =>
        simp only [List.cons_append, List.cons.injEq] at hl
        obtain ⟨rfl, _⟩ := hl
        simp only [spec_hex_acc, ← hexval_eq_spec] at h
        cases hc : hexval c with
        | none => simp [hc] at h
        | some d =>
          simp only [hc] at h
          cases hc2 : hexval c2 with
          | none => simp [hc2] at h
          | some d2 =>
            have := hexval_some_facts c2 d2 hc2
            omega
    simp only [List.cons_append] at hscan ⊢
    cases hl : t ++ rest with
    | nil =>
      rw [hl] at hscan
      simp only [scan_x_body, hscan]
    | cons cx l =>
      rw [hl] at hscan
      have := hnx cx l hl
      simp only [scan_x_body, this, and_false, if_false, hscan]

theorem scan_x_spec (ds rest : List Char) (v : Nat)
    (h : spec_hex_value ds = some v) (hv : v < 2 ^ 32) (hrest : stops_digits rest) :
    scan_x (ds ++ rest) = Conv.ok v rest := by
  cases ds with
  | nil => simp [spec_hex_value] at h
  | cons c t =>
    have hbody := scan_x_body_spec false (c :: t) rest v h hrest
    simp only [spec_hex_value, spec_hex_acc, ← hexval_eq_spec] at h
    cases hc : hexval c with
    | none => simp [hc] at h
    | some d =>
      have hf := hexval_some_facts c d hc
      have hst : store_unsigned false v = v := by
        unfold store_unsigned
        have : ¬ 2 ^ 64 ≤ v := by omega
        simp only [this, if_false, Bool.false_eq_true]
        exact Nat.mod_eq_of_lt hv
      simp only [List.cons_append] at hbody ⊢
      simp only [scan_x, skip_space, hf.1, Bool.false_eq_true, if_false, hf.2.1, hf.2.2.1, hbody, hst]

theorem isspace_blank (c : Char) (h : isspace c = true) : spec_blank c := by
  unfold isspace at h
  simp only [Bool.or_eq_true, Bool.and_eq_true, decide_eq_true_eq] at h
  have hc : ∃ n, c.toNat = n ∧ (n = 32 ∨ (9 ≤ n ∧ n ≤ 13)) := ⟨_, rfl, h⟩
  obtain ⟨n, hn, hr⟩ := hc
  have hce := char_eq_of_toNat c n hn
  subst hce
  unfold spec_blank
  rcases hr with rfl | ⟨h1, h2⟩
  · exact Or.inl rfl
  · interval_cases n <;> simp

theorem skip_space_decomp (s : List Char) :
    ∃ ws, s = ws ++ skip_space s ∧ ∀ c ∈ ws, spec_blank c := by
  induction s with
  | nil => exact ⟨[], by simp [skip_space]⟩
  | cons c t ih =>
    by_cases hc : isspace c = true
    · obtain ⟨ws, hws, hb⟩ := ih
      refine ⟨c :: ws, ?_, ?_⟩
      · simp only [skip_space, hc, if_true, List.cons_append]
        rw [← hws]
      · intro x hx
        rcases List.mem_cons.mp hx with rfl | hx
        · exact isspace_blank _ hc
        · exact hb x hx
    · exact ⟨[], by simp [skip_space, hc]⟩

theorem scan_hex_digits_decomp (s : List Char) :
    ∀ (acc n v m : Nat) (rest : List Char), scan_hex_digits s acc n = (v, m, rest) →
      ∃ ds, s = ds ++ rest ∧ m = n + ds.length ∧ spec_hex_acc ds acc = some v := by
  induction s with
  | nil =>
    intro acc n v m rest h
    simp only [scan_hex_digits, Prod.mk.injEq] at h
    obtain ⟨rfl, rfl, rfl⟩ := h
    exact ⟨[], by simp [spec_hex_acc]⟩
  | cons c t ih =>
    intro acc n v m rest h
    cases hc : hexval c with
    | none =>
      simp only [scan_hex_digits, hc, Prod.mk.injEq] at h
      obtain ⟨rfl, rfl, rfl⟩ := h
      exact ⟨[], by simp [spec_hex_acc]⟩
    | some d =>
      simp only [scan_hex_digits, hc] at h
      obtain ⟨ds, hds, hm, hv⟩ := ih _ _ _ _ _ h
      refine ⟨c :: ds, ?_, ?_, ?_⟩
      · simp [hds]
      · simp only [List.length_cons]; omega
      · simp only [spec_hex_acc, ← hexval_eq_spec, hc, hv]

theorem digits_item (s : List Char) (neg : Bool) (v : Nat) (rest : List Char)
    (h : (match scan_hex_digits s 0 0 with
      | (_, 0, _) => Conv.matching_failure
      | (v, _, rest) => Conv.ok (store_unsigned neg v) rest) = Conv.ok v rest) :
    ∃ ds, s = ds ++ rest ∧ (spec_hex_value ds).isSome = true := by
  rcases hs : scan_hex_digits s 0 0 with ⟨w, m, r⟩
  rw [hs] at h
  cases m with
  | zero => simp at h
  | succ m =>
    simp only [Conv.ok.injEq] at h
    obtain ⟨_, rfl⟩ := h
    obtain ⟨ds, hds, hm, hv⟩ := scan_hex_digits_decomp s 0 0 w (m + 1) r hs
    refine ⟨ds, hds, ?_⟩
    cases ds with
    | nil => simp at hm
    | cons c t => simp [spec_hex_value, hv]

theorem scan_x_body_decomp (neg : Bool) (s : List Char) (v : Nat) (rest : List Char)
    (h : scan_x_body neg s = Conv.ok v rest) :
    ∃ pre ds, s = pre ++ ds ++ rest ∧
      ((pre = [] ∧ (spec_hex_value ds).isSome = true) ∨
        ((pre = ['0', 'x'] ∨ pre = ['0', 'X']) ∧ (spec_hex_acc ds 0).isSome = true)) := by
  unfold scan_x_body at h
  split at h
  · rename_i c0 cx t
    split at h
    · rename_i hpre
      rcases hs : scan_hex_digits t 0 0 with ⟨w, m, r⟩
      rw [hs] at h
      simp only [Conv.ok.injEq] at h
      obtain ⟨_, rfl⟩ := h
      obtain ⟨ds, hds, _, hv⟩ := scan_hex_digits_decomp t 0 0 w m r hs
      have h0 : c0 = '0' := char_eq_of_toNat c0 48 hpre.1
      refine ⟨[c0, cx], ds, by simp [hds], Or.inr ⟨?_, by simp [hv]⟩⟩
      rcases hpre.2 with hx | hx
      · have := char_eq_of_toNat cx 120 hx
        subst this; subst h0
        left; rfl
      · have := char_eq_of_toNat cx 88 hx
        subst this; subst h0
        right; rfl
    · obtain ⟨ds, hds, hsome⟩ := digits_item _ neg v rest h
      exact ⟨[], ds, by simp [hds], Or.inl ⟨rfl, hsome⟩⟩
  · obtain ⟨ds, hds, hsome⟩ := digits_item _ neg v rest h
    exact ⟨[], ds, by simp [hds], Or.inl ⟨rfl, hsome⟩⟩

theorem scan_x_decomp (s : List Char) (v : Nat) (rest : List Char)
    (h : scan_x s = Conv.ok v rest) :
    ∃ ws item, s = ws ++ item ++ rest ∧ (∀ c ∈ ws, spec_blank c) ∧ spec_item item := by
  obtain ⟨ws, hws, hb⟩ := skip_space_decomp s
  unfold scan_x at h
  cases hsk : skip_space s with
  | nil => simp [hsk] at h
  | cons c t =>
    rw [hsk] at hws
    simp only [hsk] at h
    split at h
    · rename_i hm
      obtain ⟨pre, ds, hds, hitem⟩ := scan_x_body_decomp _ _ _ _ h
      have hc := char_eq_of_toNat c 45 hm
      refine ⟨ws, c :: (pre ++ ds), by simp [hws, hds], hb, ['-'], pre, ds, ?_, by simp, hitem⟩
      subst hc
      rfl
    · split at h
      · rename_i hm
        obtain ⟨pre, ds, hds, hitem⟩ := scan_x_body_decomp _ _ _ _ h
        have hc := char_eq_of_toNat c 43 hm
        refine ⟨ws, c :: (pre ++ ds), by simp [hws, hds], hb, ['+'], pre, ds, ?_, by simp,
          hitem⟩
        subst hc
        rfl
      · obtain ⟨pre, ds, hds, hitem⟩ := scan_x_body_decomp _ _ _ _ h
        exact ⟨ws, pre ++ ds, by simp [hws, hds], hb, [], pre, ds, by simp, by simp, hitem⟩

theorem sscanf_two_decomp (s : List Char) (v d : Nat) (h : sscanf_x_colon_x s = (2, v, d)) :
    spec_begins_with_pair s := by
  unfold sscanf_x_colon_x at h
  cases h1 : scan_x s with
  | input_failure => simp [h1] at h
  | matching_failure =>
    simp only [h1, Prod.mk.injEq] at h
    omega
  | ok v1 rest1 =>
    simp only [h1] at h
    cases rest1 with
    | nil => simp at h
    | cons c t =>
      simp only at h
      by_cases hc : c.toNat = 58
      · simp only [hc, if_true] at h
        cases h2 : scan_x t with
        | input_failure => simp [h2] at h
        | matching_failure => simp [h2] at h
        | ok v2 rest2 =>
          obtain ⟨ws1, item1, hs1, hb1, hi1⟩ := scan_x_decomp s v1 (c :: t) h1
          obtain ⟨ws2, item2, hs2, hb2, hi2⟩ := scan_x_decomp t v2 rest2 h2
          have hcc := char_eq_of_toNat c 58 hc
          refine ⟨ws1, item1, ws2, item2, rest2, ?_, hb1, hi1, hb2, hi2⟩
          rw [hs1, hs2, hcc]
          simp
      · simp [hc] at h

theorem colon_mem_of_begins (s : List Char) (h : spec_begins_with_pair s) : ':' ∈ s := by
  obtain ⟨ws1, item1, ws2, item2, rest, rfl, _⟩ := h
  simp

theorem selection_policy_rejects (s : String) (hlist : s ≠ "list")
    (hbad : ¬ spec_begins_with_pair s.toList) :
    selection_policy (some s) = SelectionPolicy.ConfigParseError s := by
  unfold selection_policy
  simp only [hlist, if_false]
  rcases hsc : sscanf_x_colon_x s.toList with ⟨matched, v, d⟩
  by_cases hm : matched = 2
  · subst hm
    exact absurd (sscanf_two_decomp s.toList v d hsc) hbad
  · simp [hm]

theorem selection_policy_accepts (v d : Nat) (r1 r2 : List Char)
    (h1 : spec_hex_value r1 = some v) (h2 : spec_hex_value r2 = some d)
    (hv : v < 2 ^ 32) (hd : d < 2 ^ 32) :
    selection_policy (some (String.mk (r1 ++ ':' :: r2))) = SelectionPolicy.MatchExact v d := by
  have hne : String.mk (r1 ++ ':' :: r2) ≠ "list" := by
    intro h
    have hmem : ':' ∈ (String.mk (r1 ++ ':' :: r2)).data := by simp
    rw [h] at hmem
    revert hmem
    decide
  have hs1 : scan_x (r1 ++ ':' :: r2) = Conv.ok v (':' :: r2) :=
    scan_x_spec r1 (':' :: r2) v h1 hv (by simp only [stops_digits]; decide)
  have hs2 : scan_x r2 = Conv.ok d [] := by
    have := scan_x_spec r2 [] d h2 hd (by simp only [stops_digits])
    simpa using this
  unfold selection_policy
  simp only [hne, if_false]
  have hsc : sscanf_x_colon_x (String.mk (r1 ++ ':' :: r2)).toList = (2, v, d) := by
    show sscanf_x_colon_x (r1 ++ ':' :: r2) = (2, v, d)
    unfold sscanf_x_colon_x
    rw [hs1]
    simp only
    rw [if_pos (by decide), hs2]
  rw [hsc]
  simp

theorem spec_hex_acc_no_colon (ds : List Char) :
    ∀ (acc v : Nat), spec_hex_acc ds acc = some v → ∀ c ∈ ds, (c != ':') = true := by
  induction ds with
  | nil => intro acc v _ c hc; simp at hc
  | cons x t ih =>
    intro acc v h c hc
    simp only [spec_hex_acc] at h
    cases hx : spec_hex_digit x with
    | none => simp [hx] at h
    | some w =>
      simp only [hx] at h
      rcases List.mem_cons.mp hc with rfl | hc
      · rw [← hexval_eq_spec] at hx
        have := (hexval_some_facts c w hx).2.2.2.2.2
        simp only [bne_iff_ne, ne_eq]
        intro hcc
        subst hcc
        exact this (by decide)
      · exact ih _ _ h c hc

theorem spec_pair_of_renderings (v d : Nat) (r1 r2 : List Char)
    (h1 : spec_hex_value r1 = some v) (h2 : spec_hex_value r2 = some d)
    (hv : v < 2 ^ 32) (hd : d < 2 ^ 32) :
    spec_pair (r1 ++ ':' :: r2) = some (v, d) := by
  have hno : ∀ c ∈ r1, (c != ':') = true := by
    cases r1 with
    | nil => simp [spec_hex_value] at h1
    | cons c t => exact spec_hex_acc_no_colon (c :: t) 0 v h1
  unfold spec_pair
  rw [List.span_eq_take_drop, List.takeWhile_append_of_pos hno, List.dropWhile_append_of_pos hno]
  simp [h1, h2]
  omega

theorem print_gpu_line (env : Env) (info : instance_info) (index : Nat)
    (dev : VkPhysicalDevice) (hp : info.GetPhysicalDeviceProperties ≠ 0) :
    print_gpu env info index dev
      = some (list_line (env.call_GetPhysicalDeviceProperties info.GetPhysicalDeviceProperties)
          index dev) := by
  simp [print_gpu, hp, list_line]

theorem list_loop_eq (env : Env) (info : instance_info) (pd : List VkPhysicalDevice)
    (hp : info.GetPhysicalDeviceProperties ≠ 0) :
    ∀ (n i : Nat) (out : List String), i + n ≤ pd.length →
      list_loop env info pd n i out
        = (out ++ spec_listing
            (env.call_GetPhysicalDeviceProperties info.GetPhysicalDeviceProperties) i
            ((pd.drop i).take n), true) := by
  intro n
  induction n with
  | zero => intro i out _; simp [list_loop, spec_listing]
  | succ n ih =>
    intro i out hi
    have hip : i < pd.length := by omega
    have hdrop : List.drop i pd = pd[i] :: List.drop (i + 1) pd :=
      List.drop_eq_getElem_cons hip
    rw [list_loop]
    simp only [List.getElem?_eq_getElem hip, print_gpu_line env info i _ hp]
    rw [ih (i + 1) _ (by omega), hdrop, List.take_succ_cons]
    simp [spec_listing]

theorem list_mode_outcome (env : Env) (instances : Registry) (inst : VkInstance)
    (info : instance_info) (devs : List VkPhysicalDevice) (N : Nat)
    (buf : Option (List VkPhysicalDevice))
    (hsrc : source_succeeds env instances inst info devs)
    (hsel : env.selection = some "list") :
    device_select_EnumeratePhysicalDevices env instances inst N buf
      = ⟨Termination.exited 0, instances,
          "selectable devices:\n" :: spec_listing
            (env.call_GetPhysicalDeviceProperties info.GetPhysicalDeviceProperties) 0 devs,
          N, buf⟩ := by
  obtain ⟨hreg, he, hp, h1, hc1, hc2, h2, hle⟩ := hsrc
  generalize hn : (env.call_EnumeratePhysicalDevices info.EnumeratePhysicalDevices inst 0
    false).count = n at h2 hle
  have hpd := fetched_array devs n hle
  have hpol : selection_policy env.selection = SelectionPolicy.ListAndTerminate := by
    rw [hsel]; decide
  have hloop := list_loop_eq env info (devs ++ List.replicate (n - devs.length) 0) hp
    devs.length 0 ["selectable devices:\n"] (by simp)
  simp only [List.drop_zero, List.take_left', List.singleton_append] at hloop
  unfold device_select_EnumeratePhysicalDevices
  simp only [Registry.index, hreg, he, h1, hc1, hc2, hn, h2, hpd, if_false, ne_eq,
    not_true_eq_false, and_self, not_false_eq_true, if_true, hpol, hloop]

theorem spec_listing_length (props : VkPhysicalDevice → VkPhysicalDeviceProperties)
    (devs : List VkPhysicalDevice) : ∀ first : Nat, (spec_listing props first devs).length
      = devs.length := by
  induction devs with
  | nil => intro first; simp [spec_listing]
  | cons dev rest ih => intro first; simp [spec_listing, ih]

theorem spec_listing_get (props : VkPhysicalDevice → VkPhysicalDeviceProperties)
    (devs : List VkPhysicalDevice) :
    ∀ (first k : Nat) (dev : VkPhysicalDevice), devs[k]? = some dev →
      (spec_listing props first devs)[k]? = some (list_line props (first + k) dev) := by
  induction devs with
  | nil => intro first k dev h; simp at h
  | cons d rest ih =>
    intro first k dev h
    cases k with
    | zero =>
      simp only [List.getElem?_cons_zero, Option.some.injEq] at h
      simp [spec_listing, h]
    | succ k =>
      simp only [List.getElem?_cons_succ] at h
      simp only [spec_listing, List.getElem?_cons_succ]
      rw [ih (first + 1) k dev h]
      congr 2
      omega

theorem fmt_d_small (k : Nat) (hk : k < 2 ^ 31) : fmt_d k = toString k := by
  unfold fmt_d
  have h1 : k % 2 ^ 32 = k := Nat.mod_eq_of_lt (by omega)
  rw [h1, if_pos hk]

theorem copy_loop_frame (src : List VkPhysicalDevice) :
    ∀ (n i : Nat) (dst r : List VkPhysicalDevice), copy_loop src n i dst = some r →
      r.length = dst.length ∧ ∀ j : Nat, (j < i ∨ i + n ≤ j) → r[j]? = dst[j]? := by
  intro n
  induction n with
  | zero =>
    intro i dst r h
    simp only [copy_loop, Option.some.injEq] at h
    subst h
    exact ⟨rfl, fun _ _ => rfl⟩
  | succ n ih =>
    intro i dst r h
    rw [copy_loop] at h
    cases hs : src[i]? with
    | none => simp [hs] at h
    | some dev =>
      simp only [hs] at h
      by_cases hi : i < dst.length
      · simp only [hi, if_true] at h
        obtain ⟨hlen, hfr⟩ := ih (i + 1) _ r h
        refine ⟨by simpa using hlen, ?_⟩
        intro j hj
        rw [hfr j (by omega), List.getElem?_set]
        have : ¬ i = j := by omega
        simp [this]
      · simp [hi] at h

theorem write_back_frame (instances : Registry) (sel buffer : List VkPhysicalDevice)
    (k N : Nat) :
    (write_back instances sel k N (some buffer)).pPhysicalDeviceCount ≤ N ∧
    ∃ after : List VkPhysicalDevice,
      (write_back instances sel k N (some buffer)).pPhysicalDevices = some after ∧
      after.length = buffer.length ∧
      ∀ j : Nat, (write_back instances sel k N (some buffer)).pPhysicalDeviceCount ≤ j →
        after[j]? = buffer[j]? := by
  unfold write_back
  simp only
  cases hloop : copy_loop sel (if k < N then k else N) 0 buffer with
  | none =>
    simp only
    refine ⟨by split <;> omega, buffer, rfl, rfl, fun _ _ => rfl⟩
  | some after =>
    simp only
    obtain ⟨hlen, hfr⟩ := copy_loop_frame sel _ 0 buffer after hloop
    refine ⟨by split <;> omega, after, rfl, hlen, ?_⟩
    intro j hj
    exact hfr j (Or.inr (by omega))

theorem enumerate_shape (env : Env) (instances : Registry) (inst : VkInstance) (N : Nat)
    (buf : Option (List VkPhysicalDevice)) :
    (∃ (term : Termination) (reg : Registry) (err : List String),
      device_select_EnumeratePhysicalDevices env instances inst N buf
        = ⟨term, reg, err, N, buf⟩) ∨
    (∃ (reg : Registry) (sel : List VkPhysicalDevice) (k : Nat),
      device_select_EnumeratePhysicalDevices env instances inst N buf
        = write_back reg sel k N buf) := by
  unfold device_select_EnumeratePhysicalDevices
  generalize Registry.index instances inst = p
  obtain ⟨info, reg⟩ := p
  simp only
  repeat' (first | exact Or.inl ⟨_, _, _, rfl⟩ | exact Or.inr ⟨_, _, _, rfl⟩ | split)

theorem exact_match_loop_add (props : VkPhysicalDevice → VkPhysicalDeviceProperties)
    (v d : Nat) (pd : List VkPhysicalDevice) :
    ∀ (a b i : Nat) (st : List VkPhysicalDevice × Nat),
      exact_match_loop props v d pd (a + b) i st
        = (exact_match_loop props v d pd a i st).bind
            (fun st1 => exact_match_loop props v d pd b (i + a) st1) := by
  intro a
  induction a with
  | zero => intro b i st; simp [exact_match_loop]
  | succ a ih =>
    intro b i st
    obtain ⟨sel, k⟩ := st
    have e : a + 1 + b = (a + b) + 1 := by omega
    rw [e, exact_match_loop, exact_match_loop]
    cases hpd : pd[i]? with
    | none => simp
    | some dev =>
      simp only
      have e2 : i + (a + 1) = i + 1 + a := by omega
      split
      · split
        · rw [ih, e2]
        · simp
      · rw [ih, e2]

theorem exact_match_prefix (props : VkPhysicalDevice → VkPhysicalDeviceProperties)
    (v d : Nat) (pd : List VkPhysicalDevice) (n j : Nat) (hlen : pd.length = n) (hj : j ≤ n) :
    ∃ (sel : List VkPhysicalDevice) (k : Nat),
      exact_match_loop props v d pd j 0 (List.replicate n 0, 0) = some (sel, k) ∧
      k ≤ j ∧ sel.length = n := by
  have hloop := exact_match_loop_eq props v d pd j 0 (List.replicate n 0) 0
    (by omega) (by omega) (by simp [hlen])
  simp only [List.drop_zero, List.take_zero, List.nil_append, Nat.zero_add] at hloop
  have hf : ((pd.take j).filter (matches_pair props v d)).length ≤ j := by
    have h1 := List.length_filter_le (matches_pair props v d) (pd.take j)
    have h2 : (pd.take j).length ≤ j := by simp [List.length_take]
    omega
  refine ⟨_, _, hloop, hf, ?_⟩
  simp only [List.length_append, List.length_drop, List.length_replicate]
  omega

theorem lookup_erase (m : Registry) (k h : VkInstance) :
    List.lookup h (Registry.erase m k) = if h = k then none else List.lookup h m := by
  induction m with
  | nil => simp [Registry.erase]
  | cons e rest ih =>
    obtain ⟨a, r⟩ := e
    unfold Registry.erase at ih ⊢
    by_cases hak : a = k
    · have hstep : List.filter (fun entry : VkInstance × instance_info => entry.1 != k)
          ((a, r) :: rest) = List.filter (fun entry => entry.1 != k) rest := by
        rw [List.filter_cons]
        simp [hak]
      rw [hstep, ih]
      by_cases hh : h = k
      · rw [if_pos hh, if_pos hh]
      · rw [if_neg hh, if_neg hh]
        have hha : (h == a) = false := by
          rw [hak]
          simpa using hh
        simp only [List.lookup, hha]
    · have hstep : List.filter (fun entry : VkInstance × instance_info => entry.1 != k)
          ((a, r) :: rest) = (a, r) :: List.filter (fun entry => entry.1 != k) rest := by
        rw [List.filter_cons]
        simp [hak]
      rw [hstep]
      by_cases hh : h = a
      · have hhk : ¬ h = k := by
          rw [hh]
          exact hak
        have hha : (h == a) = true := by simp [hh]
        rw [if_neg hhk]
        simp only [List.lookup, hha]
      · have hha : (h == a) = false := by simpa using hh
        simp only [List.lookup, hha]
        exact ih

theorem lookup_assign (m : Registry) (k h : VkInstance) (r : instance_info) :
    List.lookup h (Registry.assign m k r) = if h = k then some r else List.lookup h m := by
  unfold Registry.assign
  by_cases hh : h = k
  · subst hh
    simp [List.lookup]
  · have : (h == k) = false := by simp [hh]
    simp only [List.lookup, this, lookup_erase, hh, if_false]

theorem index_registered (m : Registry) (h : VkInstance) (r : instance_info)
    (hreg : List.lookup h m = some r) : Registry.index m h = (r, m) := by
  simp [Registry.index, hreg]

theorem index_missing (m : Registry) (h : VkInstance) (hreg : List.lookup h m = none) :
    Registry.index m h = (instance_info.zero, (h, instance_info.zero) :: m) := by
  simp [Registry.index, hreg]

theorem lookup_index_other (m : Registry) (k h : VkInstance) (hne : h ≠ k) :
    List.lookup h (Registry.index m k).2 = List.lookup h m := by
  unfold Registry.index
  cases hk : List.lookup k m with
  | none =>
    have : (h == k) = false := by simp [hne]
    simp [List.lookup, this]
  | some r => simp

theorem lookup_destroy (m : Registry) (k h : VkInstance) :
    List.lookup h (DestroyInstance m k).2 = if h = k then none else List.lookup h m := by
  unfold DestroyInstance
  simp only [lookup_erase]
  by_cases hh : h = k
  · simp [hh]
  · simp only [hh, if_false]
    exact lookup_index_other m k h hh

theorem create_shape (next : NextLayer) (m : Registry) (pNext : List VkLayerInstanceCreateInfo)
    (pInstance : VkInstance) (result : VkResult)
    (h : (CreateInstance next m pNext pInstance).term = Termination.returned result) :
    (result = VK_SUCCESS ∧ ∃ r : instance_info,
      (CreateInstance next m pNext pInstance).instances
        = Registry.assign m (CreateInstance next m pNext pInstance).pInstance r) ∨
    (result ≠ VK_SUCCESS ∧ (CreateInstance next m pNext pInstance).instances = m) := by
  unfold CreateInstance at h ⊢
  cases hf : find_chain_info pNext with
  | none => simp [hf] at h
  | some chain_info =>
    simp only [hf] at h ⊢
    cases hl : chain_info.pLayerInfo with
    | nil => simp [hl] at h
    | cons link rest =>
      simp only [hl] at h ⊢
      by_cases hg : link.pfnNextGetInstanceProcAddr = 0
      · simp [hg] at h
      · simp only [hg, if_false] at h ⊢
        by_cases hfp : next.call_GetInstanceProcAddr link.pfnNextGetInstanceProcAddr 0
            "vkCreateInstance" = 0
        · simp only [hfp, if_true, Termination.returned.injEq] at h ⊢
          right
          subst h
          exact ⟨by decide, trivial⟩
        · simp only [hfp, if_false] at h ⊢
          rcases hc : next.call_CreateInstance (next.call_GetInstanceProcAddr
            link.pfnNextGetInstanceProcAddr 0 "vkCreateInstance") with ⟨res, created⟩
          simp only [hc] at h ⊢
          by_cases hres : res = VK_SUCCESS
          · simp only [hres, ne_eq, not_true_eq_false, if_false,
              Termination.returned.injEq] at h ⊢
            left
            exact ⟨h.symm, _, rfl⟩
          · simp only [ne_eq, hres, not_false_eq_true, if_true,
              Termination.returned.injEq] at h ⊢
            right
            subst h
            exact ⟨hres, trivial⟩

theorem write_back_instances (reg : Registry) (sel : List VkPhysicalDevice) (k N : Nat)
    (buf : Option (List VkPhysicalDevice)) : (write_back reg sel k N buf).instances = reg := by
  unfold write_back
  cases buf with
  | none => rfl
  | some buffer =>
    simp only
    split <;> rfl

theorem enumerate_instances (env : Env) (instances : Registry) (inst : VkInstance) (N : Nat)
    (buf : Option (List VkPhysicalDevice)) :
    (device_select_EnumeratePhysicalDevices env instances inst N buf).instances
      = (Registry.index instances inst).2 := by
  unfold device_select_EnumeratePhysicalDevices
  generalize Registry.index instances inst = p
  obtain ⟨info, reg⟩ := p
  simp only
  repeat' (first | rfl | exact write_back_instances _ _ _ _ _ | split)

theorem enumerate_unregistered (env : Env) (instances : Registry) (inst : VkInstance) (N : Nat)
    (buf : Option (List VkPhysicalDevice)) (hreg : List.lookup inst instances = none) :
    device_select_EnumeratePhysicalDevices env instances inst N buf
      = ⟨Termination.undefined, (inst, instance_info.zero) :: instances, [], N, buf⟩ := by
  unfold device_select_EnumeratePhysicalDevices
  simp [Registry.index, hreg, instance_info.zero]

theorem enumerate_returned_keeps (env : Env) (instances : Registry) (inst : VkInstance)
    (N : Nat) (buf : Option (List VkPhysicalDevice)) (result : VkResult)
    (h : (device_select_EnumeratePhysicalDevices env instances inst N buf).term
      = Termination.returned result) :
    (device_select_EnumeratePhysicalDevices env instances inst N buf).instances = instances := by
  cases hreg : List.lookup inst instances with
  | none =>
    rw [enumerate_unregistered env instances inst N buf hreg] at h
    cases h
  | some r => rw [enumerate_instances, index_registered instances inst r hreg]

theorem gipa_returned_keeps (self : LayerAddresses) (next : NextLayer) (instances : Registry)
    (inst : VkInstance) (name : String) (p : FnPtr) (after : Registry)
    (h : get_instance_proc_addr self next instances inst name = (some p, after)) :
    after = instances := by
  unfold get_instance_proc_addr at h
  split at h
  · simp only [Prod.mk.injEq] at h
    exact h.2.symm
  · split at h
    · simp only [Prod.mk.injEq] at h
      exact h.2.symm
    · split at h
      · simp only [Prod.mk.injEq] at h
        exact h.2.symm
      · cases hreg : List.lookup inst instances with
        | none =>
          simp [index_missing instances inst hreg, instance_info.zero] at h
        | some r =>
          rw [index_registered instances inst r hreg] at h
          simp only at h
          split at h
          · simp at h
          · simp only [Prod.mk.injEq] at h
            exact h.2.symm

theorem gpdpa_returned_keeps (next : NextLayer) (instances : Registry)
    (inst : VkInstance) (name : String) (p : FnPtr) (after : Registry)
    (h : get_pdevice_proc_addr next instances inst name = (some p, after)) :
    after = instances := by
  unfold get_pdevice_proc_addr at h
  cases hreg : List.lookup inst instances with
  | none =>
    simp [index_missing instances inst hreg, instance_info.zero] at h
  | some r =>
    rw [index_registered instances inst r hreg] at h
    simp only at h
    split at h
    · simp at h
    · simp only [Prod.mk.injEq] at h
      exact h.2.symm

theorem step_invariant (self : LayerAddresses) (reg after : Registry) (live : List VkInstance)
    (s : Step) (event : Lifecycle)
    (hinv : ∀ h : VkInstance, (List.lookup h reg).isSome = true ↔ h ∈ live)
    (hstep : step self reg s = some (after, event)) :
    ∀ h : VkInstance, (List.lookup h after).isSome = true ↔ h ∈ spec_live live event := by
  unfold step at hstep
  cases hc : s.call with
  | CreateInstance pNext pInstance =>
    simp only [hc] at hstep
    cases ht : (CreateInstance s.next reg pNext pInstance).term with
    | exited st => simp [ht] at hstep
    | undefined => simp [ht] at hstep
    | returned result =>
      simp only [ht, Option.some.injEq, Prod.mk.injEq] at hstep
      obtain ⟨hafter, hevent⟩ := hstep
      rcases create_shape s.next reg pNext pInstance result ht with ⟨hres, r, hr⟩ | ⟨hres, hr⟩
      · rw [if_pos hres] at hevent
        subst hevent
        intro h
        rw [← hafter, hr, lookup_assign]
        simp only [spec_live, List.mem_cons]
        by_cases hh : h = (CreateInstance s.next reg pNext pInstance).pInstance
        · simp [hh]
        · simp only [hh, if_false, false_or]
          exact hinv h
      · rw [if_neg hres] at hevent
        subst hevent
        intro h
        rw [← hafter, hr]
        exact hinv h
  | DestroyInstance inst =>
    simp only [hc] at hstep
    rcases hd : DestroyInstance reg inst with ⟨ok, reg2⟩
    rw [hd] at hstep
    cases ok with
    | false => simp at hstep
    | true =>
      simp only [Option.some.injEq, Prod.mk.injEq] at hstep
      obtain ⟨hafter, hevent⟩ := hstep
      subst hevent
      intro h
      have hl := lookup_destroy reg inst h
      rw [hd] at hl
      simp only at hl
      rw [← hafter, hl]
      simp only [spec_live, List.mem_filter, bne_iff_ne, ne_eq]
      by_cases hh : h = inst
      · simp [hh]
      · simp only [hh, if_false, not_false_eq_true, and_true]
        exact hinv h
  | EnumeratePhysicalDevices inst count buffer =>
    simp only [hc] at hstep
    cases ht : (device_select_EnumeratePhysicalDevices s.env reg inst count buffer).term with
    | exited st => simp [ht] at hstep
    | undefined => simp [ht] at hstep
    | returned result =>
      simp only [ht, Option.some.injEq, Prod.mk.injEq] at hstep
      obtain ⟨hafter, hevent⟩ := hstep
      subst hevent
      intro h
      rw [← hafter, enumerate_returned_keeps s.env reg inst count buffer result ht]
      exact hinv h
  | get_instance_proc_addr inst name =>
    simp only [hc] at hstep
    rcases hg : get_instance_proc_addr self s.next reg inst name with ⟨res, reg2⟩
    rw [hg] at hstep
    cases res with
    | none => simp at hstep
    | some p =>
      simp only [Option.some.injEq, Prod.mk.injEq] at hstep
      obtain ⟨hafter, hevent⟩ := hstep
      subst hevent
      intro h
      rw [← hafter, gipa_returned_keeps self s.next reg inst name p reg2 hg]
      exact hinv h
  | get_pdevice_proc_addr inst name =>
    simp only [hc] at hstep
    rcases hg : get_pdevice_proc_addr s.next reg inst name with ⟨res, reg2⟩
    rw [hg] at hstep
    cases res with
    | none => simp at hstep
    | some p =>
      simp only [Option.some.injEq, Prod.mk.injEq] at hstep
      obtain ⟨hafter, hevent⟩ := hstep
      subst hevent
      intro h
      rw [← hafter, gpdpa_returned_keeps s.next reg inst name p reg2 hg]
      exact hinv h

theorem run_invariant (self : LayerAddresses) (steps : List Step) :
    ∀ (reg : Registry) (live : List VkInstance) (after : Registry) (live1 : List VkInstance),
      (∀ h : VkInstance, (List.lookup h reg).isSome = true ↔ h ∈ live) →
      run self steps reg live = some (after, live1) →
      ∀ h : VkInstance, (List.lookup h after).isSome = true ↔ h ∈ live1 := by
  induction steps with
  | nil =>
    intro reg live after live1 hinv hrun
    simp only [run, Option.some.injEq, Prod.mk.injEq] at hrun
    obtain ⟨rfl, rfl⟩ := hrun
    exact hinv
  | cons s rest ih =>
    intro reg live after live1 hinv hrun
    rw [run] at hrun
    cases hs : step self reg s with
    | none => simp [hs] at hrun
    | some p =>
      obtain ⟨reg2, event⟩ := p
      simp only [hs] at hrun
      exact ih reg2 (spec_live live event) after live1
        (step_invariant self reg reg2 live s event hinv hs) hrun

theorem scan_hex_digits_count_aux (s : List Char) :
    ∀ (acc n : Nat), n ≤ (scan_hex_digits s acc n).2.1 := by
  induction s with
  | nil => intro acc n; simp [scan_hex_digits]
  | cons c t ih =>
    intro acc n
    rw [scan_hex_digits]
    cases hc : hexval c with
    | none => simp
    | some d =>
      simp only
      have := ih (16 * acc + d) (n + 1)
      omega

theorem blank_isspace (c : Char) (h : spec_blank c) : isspace c = true := by
  unfold spec_blank at h
  rcases h with rfl | rfl | rfl | rfl | rfl | rfl <;> decide

theorem skip_space_blanks (ws t : List Char) (hws : ∀ c ∈ ws, spec_blank c) :
    skip_space (ws ++ t) = skip_space t := by
  induction ws with
  | nil => rfl
  | cons c rest ih =>
    have hc : isspace c = true := blank_isspace c (hws c (List.mem_cons_self c rest))
    simp only [List.cons_append, skip_space, hc, if_true]
    exact ih (fun x hx => hws x (List.mem_cons_of_mem c hx))

theorem scan_hex_digits_count (ds : List Char) :
    ∀ (tail : List Char) (acc n : Nat), (spec_hex_acc ds acc).isSome = true →
      n + ds.length ≤ (scan_hex_digits (ds ++ tail) acc n).2.1 := by
  induction ds with
  | nil =>
    intro tail acc n _
    simp only [List.nil_append, List.length_nil, Nat.add_zero]
    cases tail with
    | nil => simp [scan_hex_digits]
    | cons c t =>
      rw [scan_hex_digits]
      cases hc : hexval c with
      | none => simp
      | some d =>
        simp only
        have := scan_hex_digits_count_aux t (16 * acc + d) (n + 1)
        omega
  | cons c t ih =>
    intro tail acc n h
    simp only [spec_hex_acc, ← hexval_eq_spec] at h
    cases hc : hexval c with
    | none => simp [hc] at h
    | some d =>
      simp only [hc] at h
      have hstep : scan_hex_digits (c :: t ++ tail) acc n
          = scan_hex_digits (t ++ tail) (16 * acc + d) (n + 1) := by
        simp only [List.cons_append, scan_hex_digits, hc]
        rfl
      rw [hstep]
      have := ih tail _ (n + 1) h
      simp only [List.length_cons]
      omega

theorem scan_x_body_of_digit (neg : Bool) (s : List Char)
    (h : 1 ≤ (scan_hex_digits s 0 0).2.1) :
    ∃ (v : Nat) (rest : List Char), scan_x_body neg s = Conv.ok v rest := by
  have hgen : ∃ (v : Nat) (rest : List Char),
      (match scan_hex_digits s 0 0 with
        | (_, 0, _) => Conv.matching_failure
        | (v, _, rest) => Conv.ok (store_unsigned neg v) rest) = Conv.ok v rest := by
    rcases hs : scan_hex_digits s 0 0 with ⟨w, m, r⟩
    rw [hs] at h
    cases m with
    | zero => simp at h
    | succ m => exact ⟨_, _, rfl⟩
  unfold scan_x_body
  split
  · split
    · rcases scan_hex_digits _ 0 0 with ⟨w, m, r⟩
      exact ⟨_, _, rfl⟩
    · exact hgen
  · exact hgen

theorem scan_x_body_of_prefix (neg : Bool) (cx : Char) (t : List Char)
    (hx : cx.toNat = 120 ∨ cx.toNat = 88) :
    scan_x_body neg ('0' :: cx :: t)
      = Conv.ok (store_unsigned neg (scan_hex_digits t 0 0).1) (scan_hex_digits t 0 0).2.2 := by
  have h0 : ('0' : Char).toNat = 48 := by decide
  simp only [scan_x_body, h0, hx, and_self, if_true]

theorem body_accepts (neg : Bool) (pre ds tail : List Char) (h : item_body pre ds) :
    ∃ (v : Nat) (rest : List Char), scan_x_body neg (pre ++ ds ++ tail) = Conv.ok v rest := by
  rcases h with ⟨rfl, hds⟩ | ⟨hpre, _⟩
  · cases ds with
    | nil => simp [spec_hex_value] at hds
    | cons c t =>
      apply scan_x_body_of_digit
      have hacc : (spec_hex_acc (c :: t) 0).isSome = true := by
        simpa [spec_hex_value] using hds
      have := scan_hex_digits_count (c :: t) tail 0 0 hacc
      simp only [List.length_cons, List.nil_append] at this ⊢
      omega
  · rcases hpre with rfl | rfl
    · exact ⟨_, _, scan_x_body_of_prefix neg 'x' (ds ++ tail) (Or.inl (by decide))⟩
    · exact ⟨_, _, scan_x_body_of_prefix neg 'X' (ds ++ tail) (Or.inr (by decide))⟩

theorem body_accepts_colon (neg : Bool) (pre ds more : List Char) (h : item_body pre ds) :
    ∃ v : Nat, scan_x_body neg (pre ++ ds ++ ':' :: more) = Conv.ok v (':' :: more) := by
  have hstop : stops_digits (':' :: more) := by
    simp only [stops_digits]
    decide
  rcases h with ⟨rfl, hds⟩ | ⟨hpre, hds⟩
  · cases hv : spec_hex_value ds with
    | none => simp [hv] at hds
    | some v =>
      exact ⟨_, by simpa using scan_x_body_spec neg ds (':' :: more) v hv hstop⟩
  · cases hv : spec_hex_acc ds 0 with
    | none => simp [hv] at hds
    | some v =>
      have hscan := scan_hex_digits_spec ds 0 0 v (':' :: more) hv hstop
      rcases hpre with rfl | rfl
      · refine ⟨store_unsigned neg v, ?_⟩
        have := scan_x_body_of_prefix neg 'x' (ds ++ ':' :: more) (Or.inl (by decide))
        rw [hscan] at this
        simpa using this
      · refine ⟨store_unsigned neg v, ?_⟩
        have := scan_x_body_of_prefix neg 'X' (ds ++ ':' :: more) (Or.inr (by decide))
        rw [hscan] at this
        simpa using this

theorem body_first (pre ds tail : List Char) (h : item_body pre ds) :
    ∃ (c : Char) (t : List Char), pre ++ ds ++ tail = c :: t ∧ isspace c = false ∧
      c.toNat ≠ 45 ∧ c.toNat ≠ 43 := by
  rcases h with ⟨rfl, hds⟩ | ⟨hpre, _⟩
  · cases ds with
    | nil => simp [spec_hex_value] at hds
    | cons c t =>
      refine ⟨c, t ++ tail, by simp, ?_⟩
      simp only [spec_hex_value, spec_hex_acc, ← hexval_eq_spec] at hds
      cases hc : hexval c with
      | none => simp [hc] at hds
      | some d =>
        have hf := hexval_some_facts c d hc
        exact ⟨hf.1, hf.2.1, hf.2.2.1⟩
  · rcases hpre with rfl | rfl
    · exact ⟨'0', 'x' :: (ds ++ tail), by simp, by decide, by decide, by decide⟩
    · exact ⟨'0', 'X' :: (ds ++ tail), by simp, by decide, by decide, by decide⟩

theorem scan_x_item (ws item tail : List Char) (hws : ∀ c ∈ ws, spec_blank c)
    (hitem : spec_item item) :
    ∃ (neg : Bool) (pre ds : List Char), item_body pre ds ∧
      scan_x (ws ++ item ++ tail) = scan_x_body neg (pre ++ ds ++ tail) := by
  obtain ⟨sign, pre, ds, rfl, hsign, hbody⟩ := hitem
  have hb : item_body pre ds := hbody
  obtain ⟨c, t, hct, hsp, h45, h43⟩ := body_first pre ds tail hb
  rcases hsign with rfl | rfl | rfl
  · refine ⟨false, pre, ds, hb, ?_⟩
    have e : ws ++ ([] ++ pre ++ ds) ++ tail = ws ++ (pre ++ ds ++ tail) := by simp
    rw [e, hct]
    unfold scan_x
    rw [skip_space_blanks ws _ hws]
    simp only [skip_space, hsp, Bool.false_eq_true, if_false, h45, h43]
  · refine ⟨false, pre, ds, hb, ?_⟩
    have e : ws ++ (['+'] ++ pre ++ ds) ++ tail = ws ++ ('+' :: (pre ++ ds ++ tail)) := by simp
    rw [e]
    unfold scan_x
    rw [skip_space_blanks ws _ hws]
    have h1 : isspace '+' = false := by decide
    have h2 : ¬ ('+' : Char).toNat = 45 := by decide
    have h3 : ('+' : Char).toNat = 43 := by decide
    simp only [skip_space, h1, Bool.false_eq_true, if_false, h2, h3, if_true]
    rw [if_neg (by decide)]
  · refine ⟨true, pre, ds, hb, ?_⟩
    have e : ws ++ (['-'] ++ pre ++ ds) ++ tail = ws ++ ('-' :: (pre ++ ds ++ tail)) := by simp
    rw [e]
    unfold scan_x
    rw [skip_space_blanks ws _ hws]
    have h1 : isspace '-' = false := by decide
    have h3 : ('-' : Char).toNat = 45 := by decide
    simp only [skip_space, h1, Bool.false_eq_true, if_false, h3, if_true]

theorem sscanf_of_begins (s : List Char) (h : spec_begins_with_pair s) :
    ∃ v d : Nat, sscanf_x_colon_x s = (2, v, d) := by
  obtain ⟨ws1, item1, ws2, item2, rest, rfl, hb1, hi1, hb2, hi2⟩ := h
  obtain ⟨neg1, pre1, ds1, hbody1, hscan1⟩ :=
    scan_x_item ws1 item1 (':' :: (ws2 ++ item2 ++ rest)) hb1 hi1
  obtain ⟨v, hv⟩ := body_accepts_colon neg1 pre1 ds1 (ws2 ++ item2 ++ rest) hbody1
  obtain ⟨neg2, pre2, ds2, hbody2, hscan2⟩ := scan_x_item ws2 item2 rest hb2 hi2
  obtain ⟨d, rest2, hd⟩ := body_accepts neg2 pre2 ds2 rest hbody2
  have e : ws1 ++ item1 ++ [':'] ++ ws2 ++ item2 ++ rest
      = ws1 ++ item1 ++ ':' :: (ws2 ++ item2 ++ rest) := by simp
  refine ⟨v, d, ?_⟩
  rw [e]
  unfold sscanf_x_colon_x
  rw [hscan1, hv]
  simp only
  rw [if_pos (by decide), hscan2, hd]

theorem selection_policy_accepts_begins (s : String) (hlist : s ≠ "list")
    (h : spec_begins_with_pair s.toList) :
    ∃ v d : Nat, selection_policy (some s) = SelectionPolicy.MatchExact v d := by
  obtain ⟨v, d, hsc⟩ := sscanf_of_begins s.toList h
  refine ⟨v, d, ?_⟩
  unfold selection_policy
  simp only [hlist, if_false, hsc]
  simp

/-! ## The claims -/

/-- C1 (truncation): when the underlying count and fill queries succeed and
the filtered list `fl` is longer than the capacity `N` of a fill call, the call
returns `VK_INCOMPLETE`, leaves the count at `N`, and the buffer holds the
first `N` entries of `fl` in positions `0..N-1`, the rest being untouched. -/
theorem fill_truncates_to_capacity (env : Env) (instances : Registry) (inst : VkInstance)
    (info : instance_info) (devs fl buffer : List VkPhysicalDevice) (N : Nat)
    (hsrc : source_succeeds env instances inst info devs)
    (hfl : spec_filtered (env.call_GetPhysicalDeviceProperties info.GetPhysicalDeviceProperties)
      (selection_policy env.selection) devs = some fl)
    (hcap : N ≤ buffer.length) (hgt : N < fl.length) :
    (device_select_EnumeratePhysicalDevices env instances inst N (some buffer)).term
        = Termination.returned VK_INCOMPLETE ∧
    (device_select_EnumeratePhysicalDevices env instances inst N (some buffer)).pPhysicalDeviceCount
        = N ∧
    (device_select_EnumeratePhysicalDevices env instances inst N (some buffer)).pPhysicalDevices
        = some (fl.take N ++ buffer.drop N) := by
  obtain ⟨pad, hrun⟩ := run_eq env instances inst info devs fl N (some buffer) hsrc hfl
  rw [hrun, write_back_fill instances fl pad buffer N (by omega)]
  have hmin : min N fl.length = N := by omega
  simp [hgt, hmin]

/-- Witness for C1: three devices, selector `10de:1e04` selecting handles 1
and 3, capacity 1. -/
theorem fill_truncates_to_capacity_witness :
    source_succeeds (example_env (some "10de:1e04") [1, 2, 3]) example_instances 7
      example_info [1, 2, 3] ∧
    (device_select_EnumeratePhysicalDevices (example_env (some "10de:1e04") [1, 2, 3])
      example_instances 7 1 (some [9, 9, 9])).term = Termination.returned VK_INCOMPLETE ∧
    (device_select_EnumeratePhysicalDevices (example_env (some "10de:1e04") [1, 2, 3])
      example_instances 7 1 (some [9, 9, 9])).pPhysicalDeviceCount = 1 ∧
    (device_select_EnumeratePhysicalDevices (example_env (some "10de:1e04") [1, 2, 3])
      example_instances 7 1 (some [9, 9, 9])).pPhysicalDevices = some [1, 9, 9] :=
  ⟨by decide,
    fill_truncates_to_capacity (example_env (some "10de:1e04") [1, 2, 3]) example_instances 7
      example_info [1, 2, 3] [1, 3] [9, 9, 9] 1 (by decide) (by decide) (by decide) (by decide)⟩


/-- C2 (fit / over-capacity): when the underlying queries succeed and the
filtered list `fl` is no longer than the capacity `N` of a fill call, the call
returns `VK_SUCCESS`, sets the count to the length of `fl` (not `N`), and the
buffer holds `fl` in positions `0..fl.length-1`, the rest being untouched. -/
theorem fill_fits_sets_filtered_count (env : Env) (instances : Registry) (inst : VkInstance)
    (info : instance_info) (devs fl buffer : List VkPhysicalDevice) (N : Nat)
    (hsrc : source_succeeds env instances inst info devs)
    (hfl : spec_filtered (env.call_GetPhysicalDeviceProperties info.GetPhysicalDeviceProperties)
      (selection_policy env.selection) devs = some fl)
    (hcap : N ≤ buffer.length) (hle : fl.length ≤ N) :
    (device_select_EnumeratePhysicalDevices env instances inst N (some buffer)).term
        = Termination.returned VK_SUCCESS ∧
    (device_select_EnumeratePhysicalDevices env instances inst N (some buffer)).pPhysicalDeviceCount
        = fl.length ∧
    (device_select_EnumeratePhysicalDevices env instances inst N (some buffer)).pPhysicalDevices
        = some (fl ++ buffer.drop fl.length) := by
  obtain ⟨pad, hrun⟩ := run_eq env instances inst info devs fl N (some buffer) hsrc hfl
  rw [hrun, write_back_fill instances fl pad buffer N (by omega)]
  have hmin : min N fl.length = fl.length := by omega
  have hnot : ¬ N < fl.length := by omega
  simp [hnot, hmin, List.take_of_length_le hle]

/-- Witness for C2: three devices, selector `10de:1e04` selecting handles 1
and 3, capacity 3. -/
theorem fill_fits_sets_filtered_count_witness :
    source_succeeds (example_env (some "10de:1e04") [1, 2, 3]) example_instances 7
      example_info [1, 2, 3] ∧
    (device_select_EnumeratePhysicalDevices (example_env (some "10de:1e04") [1, 2, 3])
      example_instances 7 3 (some [9, 9, 9])).term = Termination.returned VK_SUCCESS ∧
    (device_select_EnumeratePhysicalDevices (example_env (some "10de:1e04") [1, 2, 3])
      example_instances 7 3 (some [9, 9, 9])).pPhysicalDeviceCount = 2 ∧
    (device_select_EnumeratePhysicalDevices (example_env (some "10de:1e04") [1, 2, 3])
      example_instances 7 3 (some [9, 9, 9])).pPhysicalDevices = some [1, 3, 9] :=
  ⟨by decide,
    fill_fits_sets_filtered_count (example_env (some "10de:1e04") [1, 2, 3]) example_instances 7
      example_info [1, 2, 3] [1, 3] [9, 9, 9] 3 (by decide) (by decide) (by decide) (by decide)⟩

/-- C3 (count query): with a null output buffer, when the underlying queries
succeed and the selector is absent or converts to a pair (so that a filtered
list `fl` exists), the call returns `VK_SUCCESS` and sets the count to the
length of the filtered list, whatever the unfiltered count is. -/
theorem count_query_returns_filtered_count (env : Env) (instances : Registry)
    (inst : VkInstance) (info : instance_info) (devs fl : List VkPhysicalDevice) (N : Nat)
    (hsrc : source_succeeds env instances inst info devs)
    (hfl : spec_filtered (env.call_GetPhysicalDeviceProperties info.GetPhysicalDeviceProperties)
      (selection_policy env.selection) devs = some fl) :
    (device_select_EnumeratePhysicalDevices env instances inst N none).term
        = Termination.returned VK_SUCCESS ∧
    (device_select_EnumeratePhysicalDevices env instances inst N none).pPhysicalDeviceCount
        = fl.length ∧
    (device_select_EnumeratePhysicalDevices env instances inst N none).pPhysicalDevices
        = none := by
  obtain ⟨pad, hrun⟩ := run_eq env instances inst info devs fl N none hsrc hfl
  rw [hrun, write_back_count]
  simp

/-- Witness for C3: three devices of which the selector `10de:1e04` keeps two;
the count returned is 2, not 3. -/
theorem count_query_returns_filtered_count_witness :
    source_succeeds (example_env (some "10de:1e04") [1, 2, 3]) example_instances 7
      example_info [1, 2, 3] ∧
    (device_select_EnumeratePhysicalDevices (example_env (some "10de:1e04") [1, 2, 3])
      example_instances 7 0 none).term = Termination.returned VK_SUCCESS ∧
    (device_select_EnumeratePhysicalDevices (example_env (some "10de:1e04") [1, 2, 3])
      example_instances 7 0 none).pPhysicalDeviceCount = 2 ∧
    (device_select_EnumeratePhysicalDevices (example_env (some "10de:1e04") [1, 2, 3])
      example_instances 7 0 none).pPhysicalDevices = none :=
  ⟨by decide,
    count_query_returns_filtered_count (example_env (some "10de:1e04") [1, 2, 3])
      example_instances 7 example_info [1, 2, 3] [1, 3] 0 (by decide) (by decide)⟩

/-- C4 (exact match is a stable filter): run on an array that holds the
unfiltered list `devs` followed by zeros, with a zeroed selected array of the
same allocated size `n`, the loop of lines 149-155 ends with the selected count
equal to the number of devices of `devs` whose identifier pair equals the
target, and with exactly those devices, in their original order and with
duplicates kept, at the front of the selected array.  On the example of the
specification (devices A, B, C as handles 1, 2, 3 and selector `10de:1e04`)
the count query returns 2 and a fill call of capacity 3 stores A and C. -/
theorem exact_match_is_stable_filter
    (props : VkPhysicalDevice → VkPhysicalDeviceProperties) (vendor_id device_id : Nat)
    (devs : List VkPhysicalDevice) (n : Nat) (hn : devs.length ≤ n) :
    exact_match_loop props vendor_id device_id ((devs ++ List.replicate n 0).take n)
        devs.length 0 (List.replicate n 0, 0)
      = some
        (devs.filter (fun dev =>
            decide ((props dev).vendorID = vendor_id ∧ (props dev).deviceID = device_id))
          ++ List.replicate
            (n - (devs.filter (fun dev =>
              decide ((props dev).vendorID = vendor_id ∧ (props dev).deviceID = device_id))).length)
            0,
         (devs.filter (fun dev =>
            decide ((props dev).vendorID = vendor_id ∧ (props dev).deviceID = device_id))).length)
    ∧ (device_select_EnumeratePhysicalDevices (example_env (some "10de:1e04") [1, 2, 3])
        example_instances 7 0 none).pPhysicalDeviceCount = 2
    ∧ (device_select_EnumeratePhysicalDevices (example_env (some "10de:1e04") [1, 2, 3])
        example_instances 7 3 (some [0, 0, 0])).pPhysicalDevices = some [1, 3, 0] := by
  refine ⟨?_, by decide, by decide⟩
  rw [fetched_array devs n hn]
  have hloop := exact_match_loop_eq props vendor_id device_id
    (devs ++ List.replicate (n - devs.length) 0) devs.length 0 (List.replicate n 0) 0
    (by simp) (by omega) (by simp; omega)
  simp only [List.drop_zero, List.take_left', List.take_zero, List.nil_append,
    Nat.zero_add] at hloop
  have hmp : matches_pair props vendor_id device_id = fun dev =>
      decide ((props dev).vendorID = vendor_id ∧ (props dev).deviceID = device_id) := rfl
  rw [hloop, hmp, List.drop_replicate]

/-- Witness for C4: the example of the specification with an allocation of
three entries. -/
theorem exact_match_is_stable_filter_witness :
    exact_match_loop example_props 0x10de 0x1e04 (([1, 2, 3] ++ List.replicate 3 0).take 3)
        [1, 2, 3].length 0 (List.replicate 3 0, 0)
      = some ([1, 3] ++ List.replicate 1 0, 2) :=
  (exact_match_is_stable_filter example_props 0x10de 0x1e04 [1, 2, 3] 3 (by decide)).1

/-- C5 (source failure propagation): for a registered handle whose enumeration
pointer is non-null, in a count-only call or a fill call (`buffer` is the
caller's array or `none`) and for every selector: if the count query returns a
status other than `VK_SUCCESS` the call returns that status; if the count query
and the allocations succeed and the fill query returns a status other than
`VK_SUCCESS` the call returns that status; in both cases nothing is printed,
no device is examined and the caller's count and buffer are left as they
were. -/
theorem source_failure_propagates (env : Env) (instances : Registry) (inst : VkInstance)
    (info : instance_info) (N : Nat) (buffer : Option (List VkPhysicalDevice))
    (hreg : instances.lookup inst = some info) (hptr : info.EnumeratePhysicalDevices ≠ 0) :
    ((env.call_EnumeratePhysicalDevices info.EnumeratePhysicalDevices inst 0 false).result
        ≠ VK_SUCCESS →
      device_select_EnumeratePhysicalDevices env instances inst N buffer
        = ⟨Termination.returned
            (env.call_EnumeratePhysicalDevices info.EnumeratePhysicalDevices inst 0 false).result,
          instances, [], N, buffer⟩) ∧
    ((env.call_EnumeratePhysicalDevices info.EnumeratePhysicalDevices inst 0 false).result
        = VK_SUCCESS →
      env.calloc_physical_devices = true → env.calloc_selected_physical_devices = true →
      (env.call_EnumeratePhysicalDevices info.EnumeratePhysicalDevices inst
        (env.call_EnumeratePhysicalDevices info.EnumeratePhysicalDevices inst 0 false).count
        true).result ≠ VK_SUCCESS →
      device_select_EnumeratePhysicalDevices env instances inst N buffer
        = ⟨Termination.returned
            (env.call_EnumeratePhysicalDevices info.EnumeratePhysicalDevices inst
              (env.call_EnumeratePhysicalDevices info.EnumeratePhysicalDevices inst 0 false).count
              true).result,
          instances, [], N, buffer⟩) := by
  constructor
  · intro h1
    unfold device_select_EnumeratePhysicalDevices
    simp only [Registry.index, hreg, hptr, if_false, ne_eq, h1, not_false_eq_true, if_true]
  · intro h1 hc1 hc2 h2
    unfold device_select_EnumeratePhysicalDevices
    simp only [Registry.index, hreg, hptr, if_false, ne_eq, h1, not_true_eq_false, hc1, hc2,
      and_self, h2, not_false_eq_true, if_true]

/-- Witness for C5: a count query failing with status -4 in a fill call, and a
fill query failing with status -4 in a count-only call. -/
theorem source_failure_propagates_witness :
    device_select_EnumeratePhysicalDevices (failing_env (-4) 0) example_instances 7 5
        (some [9, 9]) = ⟨Termination.returned (-4), example_instances, [], 5, some [9, 9]⟩ ∧
    device_select_EnumeratePhysicalDevices (failing_env 0 (-4)) example_instances 7 5 none
        = ⟨Termination.returned (-4), example_instances, [], 5, none⟩ :=
  ⟨(source_failure_propagates (failing_env (-4) 0) example_instances 7 example_info 5
      (some [9, 9]) (by decide) (by decide)).1 (by decide),
    (source_failure_propagates (failing_env 0 (-4)) example_instances 7 example_info 5
      none (by decide) (by decide)).2 (by decide) rfl rfl (by decide)⟩

/-- C6 (empty selection is success): when the underlying queries succeed and
the selector converts to a pair that no device of the unfiltered list has, a
count query and a fill call of any capacity both return `VK_SUCCESS` with count
0, print the warning, and leave the caller's buffer as it was. -/
theorem empty_selection_is_success (env : Env) (instances : Registry) (inst : VkInstance)
    (info : instance_info) (devs : List VkPhysicalDevice) (vendor_id device_id : Nat)
    (hsrc : source_succeeds env instances inst info devs)
    (hpol : selection_policy env.selection = SelectionPolicy.MatchExact vendor_id device_id)
    (hnone : ∀ dev ∈ devs,
      ¬ ((env.call_GetPhysicalDeviceProperties info.GetPhysicalDeviceProperties dev).vendorID
          = vendor_id ∧
        (env.call_GetPhysicalDeviceProperties info.GetPhysicalDeviceProperties dev).deviceID
          = device_id)) :
    (∀ N : Nat, device_select_EnumeratePhysicalDevices env instances inst N none
      = ⟨Termination.returned VK_SUCCESS, instances,
          ["WARNING: selected no devices with MESA_VK_DEVICE_SELECT\n"], 0, none⟩) ∧
    (∀ (N : Nat) (buffer : List VkPhysicalDevice),
      device_select_EnumeratePhysicalDevices env instances inst N (some buffer)
      = ⟨Termination.returned VK_SUCCESS, instances,
          ["WARNING: selected no devices with MESA_VK_DEVICE_SELECT\n"], 0, some buffer⟩) := by
  have hfl : spec_filtered
      (env.call_GetPhysicalDeviceProperties info.GetPhysicalDeviceProperties)
      (selection_policy env.selection) devs = some [] := by
    rw [hpol]
    simp only [spec_filtered, Option.some.injEq, List.filter_eq_nil_iff]
    intro dev hdev
    simp only [matches_pair, decide_eq_true_eq]
    exact hnone dev hdev
  constructor
  · intro N
    obtain ⟨pad, hrun⟩ := run_eq env instances inst info devs [] N none hsrc hfl
    rw [hrun, write_back_count]
    simp
  · intro N buffer
    obtain ⟨pad, hrun⟩ := run_eq env instances inst info devs [] N (some buffer) hsrc hfl
    rw [hrun, write_back_fill instances [] pad buffer N (by simp)]
    simp

/-- Witness for C6: three devices and the selector `1:1`, which none of them
has. -/
theorem empty_selection_is_success_witness :
    (∀ N : Nat, device_select_EnumeratePhysicalDevices (example_env (some "1:1") [1, 2, 3])
        example_instances 7 N none
      = ⟨Termination.returned VK_SUCCESS, example_instances,
          ["WARNING: selected no devices with MESA_VK_DEVICE_SELECT\n"], 0, none⟩) ∧
    (∀ (N : Nat) (buffer : List VkPhysicalDevice),
      device_select_EnumeratePhysicalDevices (example_env (some "1:1") [1, 2, 3])
        example_instances 7 N (some buffer)
      = ⟨Termination.returned VK_SUCCESS, example_instances,
          ["WARNING: selected no devices with MESA_VK_DEVICE_SELECT\n"], 0, some buffer⟩) :=
  empty_selection_is_success (example_env (some "1:1") [1, 2, 3]) example_instances 7
    example_info [1, 2, 3] 1 1 (by decide) (by decide) (by decide)

/-- C7 (well-formed pairs are accepted): for all `v`, `d` below 2^32 and all
strings `r1`, `r2` of hexadecimal digits (either case, no prefix, leading zeros
allowed) that render `v` and `d`, the selector `r1:r2` takes the `MatchExact
v d` arm; the selector `list` takes the list arm; an absent selector takes the
all-devices arm; and `10de:1e04` gives `MatchExact 0x10de 0x1e04`. -/
theorem selector_parsing_accepts_pairs (v d : Nat) (r1 r2 : List Char)
    (h1 : spec_hex_value r1 = some v) (h2 : spec_hex_value r2 = some d)
    (hv : v < 2 ^ 32) (hd : d < 2 ^ 32) :
    selection_policy (some (String.mk (r1 ++ ':' :: r2))) = SelectionPolicy.MatchExact v d ∧
    selection_policy (some "list") = SelectionPolicy.ListAndTerminate ∧
    selection_policy none = SelectionPolicy.AllDevices ∧
    selection_policy (some "10de:1e04") = SelectionPolicy.MatchExact 0x10de 0x1e04 :=
  ⟨selection_policy_accepts v d r1 r2 h1 h2 hv hd, by decide, by decide, by decide⟩

/-- Witness for C7: upper-case digits and leading zeros. -/
theorem selector_parsing_accepts_pairs_witness :
    selection_policy (some "10DE:001e04") = SelectionPolicy.MatchExact 0x10de 0x1e04 :=
  (selector_parsing_accepts_pairs 0x10de 0x1e04 "10DE".toList "001e04".toList (by decide)
    (by decide) (by decide) (by decide)).1

/-- C8, counterexample: three selectors that are not `list` and are not two
colon-separated hexadecimal integers each fitting in 32 bits are not
rejected: `1:2:3` (three tokens) takes the `MatchExact 1 2` arm,
`10de:1e04zz` (a non-hexadecimal character) the `MatchExact 0x10de 0x1e04`
arm, and `1ffffffff:1` (a value that overflows 32 bits) the
`MatchExact 0xffffffff 1` arm. -/
theorem malformed_selector_accepted :
    "1:2:3" ≠ "list" ∧ spec_pair "1:2:3".toList = none ∧
    selection_policy (some "1:2:3") = SelectionPolicy.MatchExact 1 2 ∧
    "10de:1e04zz" ≠ "list" ∧ spec_pair "10de:1e04zz".toList = none ∧
    selection_policy (some "10de:1e04zz") = SelectionPolicy.MatchExact 0x10de 0x1e04 ∧
    "1ffffffff:1" ≠ "list" ∧ spec_pair "1ffffffff:1".toList = none ∧
    selection_policy (some "1ffffffff:1") = SelectionPolicy.MatchExact 0xffffffff 1 := by
  decide

/-- C8, amended (exactly the strings that do not begin with a pair are
rejected): for every present selector other than `list`, the selector takes
the parse-failure arm if and only if it does not begin with two hexadecimal
integers separated by a colon, where each integer may be preceded by white
space and a sign and is either a non-empty string of hexadecimal digits or
`0x` or `0X` followed by a possibly empty string of hexadecimal digits; it
takes a `MatchExact` arm if and only if it does begin so, whatever follows
the second integer; in particular any two non-empty strings of hexadecimal
digits joined by a colon are accepted whatever their magnitude.  When the
selector is rejected and the underlying queries succeed, the call prints the
offending string and exits with status 1, leaving the caller's count and
buffer as they were. -/
theorem malformed_selector_rejected (s : String) (hlist : s ≠ "list") :
    (selection_policy (some s) = SelectionPolicy.ConfigParseError s ↔
      ¬ spec_begins_with_pair s.toList) ∧
    ((∃ vendor_id device_id : Nat,
        selection_policy (some s) = SelectionPolicy.MatchExact vendor_id device_id) ↔
      spec_begins_with_pair s.toList) ∧
    (∀ (r1 r2 rest : List Char), (spec_hex_value r1).isSome = true →
      (spec_hex_value r2).isSome = true → s.toList = r1 ++ ':' :: r2 ++ rest →
      ∃ vendor_id device_id : Nat,
        selection_policy (some s) = SelectionPolicy.MatchExact vendor_id device_id) ∧
    (¬ spec_begins_with_pair s.toList →
      ∀ (env : Env) (instances : Registry) (inst : VkInstance) (info : instance_info)
        (devs : List VkPhysicalDevice) (N : Nat) (buffer : Option (List VkPhysicalDevice)),
        env.selection = some s → source_succeeds env instances inst info devs →
        device_select_EnumeratePhysicalDevices env instances inst N buffer
          = ⟨Termination.exited 1, instances,
              ["failed to parse MESA_VK_DEVICE_SELECT: \"" ++ s ++ "\"\n"], N, buffer⟩) := by
  have hacc : spec_begins_with_pair s.toList →
      ∃ vendor_id device_id : Nat,
        selection_policy (some s) = SelectionPolicy.MatchExact vendor_id device_id :=
    selection_policy_accepts_begins s hlist
  refine ⟨⟨?_, selection_policy_rejects s hlist⟩, ⟨?_, hacc⟩, ?_, ?_⟩
  · intro hpol hbeg
    obtain ⟨v, d, hm⟩ := hacc hbeg
    rw [hpol] at hm
    cases hm
  · intro hm
    by_contra hbad
    obtain ⟨v, d, hm⟩ := hm
    rw [selection_policy_rejects s hlist hbad] at hm
    cases hm
  · intro r1 r2 rest h1 h2 hs
    apply hacc
    rw [hs]
    exact ⟨[], r1, [], r2, rest, by simp, by simp, ⟨[], [], r1, by simp, Or.inl rfl,
      Or.inl ⟨rfl, h1⟩⟩, by simp, ⟨[], [], r2, by simp, Or.inl rfl, Or.inl ⟨rfl, h2⟩⟩⟩
  · intro hbad env instances inst info devs N buffer hsel hsrc
    have hpol := selection_policy_rejects s hlist hbad
    obtain ⟨hreg, he, hp, h1, hc1, hc2, h2, hle⟩ := hsrc
    unfold device_select_EnumeratePhysicalDevices
    simp only [Registry.index, hreg, he, h1, hc1, hc2, h2, if_false, ne_eq,
      not_true_eq_false, and_self, not_false_eq_true, if_true, hsel, hpol]

/-- Witness for C8: the selector `bogus` (no colon) is rejected and a call
with it exits with status 1 after printing it; the selectors `0x:1` (a bare
prefix) and `1:2:3` (text after the second integer) begin with a pair and are
accepted. -/
theorem malformed_selector_rejected_witness :
    selection_policy (some "bogus") = SelectionPolicy.ConfigParseError "bogus" ∧
    device_select_EnumeratePhysicalDevices (example_env (some "bogus") [1, 2, 3])
        example_instances 7 3 (some [9, 9, 9])
      = ⟨Termination.exited 1, example_instances,
          ["failed to parse MESA_VK_DEVICE_SELECT: \"bogus\"\n"], 3, some [9, 9, 9]⟩ ∧
    (∃ vendor_id device_id : Nat,
      selection_policy (some "0x:1") = SelectionPolicy.MatchExact vendor_id device_id) ∧
    (∃ vendor_id device_id : Nat,
      selection_policy (some "1:2:3") = SelectionPolicy.MatchExact vendor_id device_id) :=
  ⟨(malformed_selector_rejected "bogus" (by decide)).1.mpr
      (fun h => absurd (colon_mem_of_begins _ h) (by decide)),
    (malformed_selector_rejected "bogus" (by decide)).2.2.2
      (fun h => absurd (colon_mem_of_begins _ h) (by decide))
      (example_env (some "bogus") [1, 2, 3]) example_instances 7 example_info [1, 2, 3] 3
      (some [9, 9, 9]) rfl (by decide),
    (malformed_selector_rejected "0x:1" (by decide)).2.1.mpr
      ⟨[], ['0', 'x'], [], ['1'], [], rfl, by simp,
        ⟨[], ['0', 'x'], [], rfl, Or.inl rfl, Or.inr ⟨Or.inl rfl, rfl⟩⟩, by simp,
        ⟨[], [], ['1'], rfl, Or.inl rfl, Or.inl ⟨rfl, by decide⟩⟩⟩,
    (malformed_selector_rejected "1:2:3" (by decide)).2.2.1 ['1'] ['2'] [':', '3']
      (by decide) (by decide) rfl⟩

/-- C9 (absent selector shows all devices): when the underlying queries
succeed and the selector is absent, the copy of lines 157-159 leaves the
unfiltered list itself, in order, at the front of the selected array; a count
query returns `VK_SUCCESS` and the unfiltered count; a fill call with capacity
`N` stores the first `min N count` unfiltered devices, returns that number as
the count, and returns `VK_INCOMPLETE` exactly when the count exceeds `N`. -/
theorem absent_selector_shows_all (env : Env) (instances : Registry) (inst : VkInstance)
    (info : instance_info) (devs : List VkPhysicalDevice)
    (hsrc : source_succeeds env instances inst info devs) (hsel : env.selection = none) :
    (∀ n : Nat, devs.length ≤ n →
      copy_loop ((devs ++ List.replicate n 0).take n) devs.length 0 (List.replicate n 0)
        = some (devs ++ List.replicate (n - devs.length) 0)) ∧
    (∀ N : Nat, device_select_EnumeratePhysicalDevices env instances inst N none
      = ⟨Termination.returned VK_SUCCESS, instances,
          if devs.length = 0 then
            ["WARNING: selected no devices with MESA_VK_DEVICE_SELECT\n"]
          else [],
          devs.length, none⟩) ∧
    (∀ (N : Nat) (buffer : List VkPhysicalDevice), N ≤ buffer.length →
      device_select_EnumeratePhysicalDevices env instances inst N (some buffer)
      = ⟨Termination.returned (if N < devs.length then VK_INCOMPLETE else VK_SUCCESS),
          instances,
          if devs.length = 0 then
            ["WARNING: selected no devices with MESA_VK_DEVICE_SELECT\n"]
          else [],
          min N devs.length,
          some (devs.take (min N devs.length) ++ buffer.drop (min N devs.length))⟩) := by
  have hfl : spec_filtered
      (env.call_GetPhysicalDeviceProperties info.GetPhysicalDeviceProperties)
      (selection_policy env.selection) devs = some devs := by
    rw [hsel]
    rfl
  refine ⟨?_, ?_, ?_⟩
  · intro n hn
    rw [fetched_array devs n hn]
    have hloop := copy_loop_eq (devs ++ List.replicate (n - devs.length) 0) devs.length 0
      (List.replicate n 0) (by simp) (by simp; omega)
    simp only [List.drop_zero, List.take_left', List.take_zero, List.nil_append,
      Nat.zero_add] at hloop
    rw [hloop, List.drop_replicate]
  · intro N
    obtain ⟨pad, hrun⟩ := run_eq env instances inst info devs devs N none hsrc hfl
    rw [hrun, write_back_count]
  · intro N buffer hcap
    obtain ⟨pad, hrun⟩ := run_eq env instances inst info devs devs N (some buffer) hsrc hfl
    rw [hrun, write_back_fill instances devs pad buffer N (by omega)]
    have htake : List.take (min N devs.length) devs = List.take N devs := by
      by_cases h : N ≤ devs.length
      · rw [Nat.min_eq_left h]
      · rw [Nat.min_eq_right (by omega), List.take_of_length_le (by omega),
          List.take_of_length_le (by omega)]
    rw [htake]

/-- Witness for C9: three devices, no selector, a fill call of capacity 2. -/
theorem absent_selector_shows_all_witness :
    device_select_EnumeratePhysicalDevices (example_env none [1, 2, 3]) example_instances 7 0
        none = ⟨Termination.returned VK_SUCCESS, example_instances, [], 3, none⟩ ∧
    device_select_EnumeratePhysicalDevices (example_env none [1, 2, 3]) example_instances 7 2
        (some [9, 9, 9])
      = ⟨Termination.returned VK_INCOMPLETE, example_instances, [], 2, some [1, 2, 9]⟩ :=
  ⟨(absent_selector_shows_all (example_env none [1, 2, 3]) example_instances 7 example_info
      [1, 2, 3] (by decide) rfl).2.1 0,
    (absent_selector_shows_all (example_env none [1, 2, 3]) example_instances 7 example_info
      [1, 2, 3] (by decide) rfl).2.2 2 [9, 9, 9] (by decide)⟩

/-- C10 (count/fill consistency): with the environment (device list and
selector) held fixed, when the underlying queries succeed and the selector is
absent or converts to a pair, a count-only call returns `VK_SUCCESS` and the
length `c` of the filtered list, and a following fill call on the table the
first call left, with capacity `c`, returns `VK_SUCCESS`, the same count `c`,
and stores the whole filtered list in positions `0..c-1`. -/
theorem count_then_fill_consistent (env : Env) (instances : Registry) (inst : VkInstance)
    (info : instance_info) (devs fl buffer : List VkPhysicalDevice) (N0 : Nat)
    (hsrc : source_succeeds env instances inst info devs)
    (hfl : spec_filtered (env.call_GetPhysicalDeviceProperties info.GetPhysicalDeviceProperties)
      (selection_policy env.selection) devs = some fl)
    (hcap : (device_select_EnumeratePhysicalDevices env instances inst N0
      none).pPhysicalDeviceCount ≤ buffer.length) :
    (device_select_EnumeratePhysicalDevices env instances inst N0 none).term
      = Termination.returned VK_SUCCESS ∧
    (device_select_EnumeratePhysicalDevices env instances inst N0 none).pPhysicalDeviceCount
      = fl.length ∧
    device_select_EnumeratePhysicalDevices env
        (device_select_EnumeratePhysicalDevices env instances inst N0 none).instances inst
        (device_select_EnumeratePhysicalDevices env instances inst N0 none).pPhysicalDeviceCount
        (some buffer)
      = ⟨Termination.returned VK_SUCCESS, instances,
          (device_select_EnumeratePhysicalDevices env instances inst N0 none).stderr,
          (device_select_EnumeratePhysicalDevices env instances inst N0 none).pPhysicalDeviceCount,
          some (fl ++ buffer.drop fl.length)⟩ := by
  obtain ⟨pad, hrun⟩ := run_eq env instances inst info devs fl N0 none hsrc hfl
  rw [hrun, write_back_count] at hcap ⊢
  simp only at hcap ⊢
  obtain ⟨pad2, hrun2⟩ := run_eq env instances inst info devs fl fl.length (some buffer) hsrc hfl
  rw [hrun2, write_back_fill instances fl pad2 buffer fl.length (by omega)]
  simp

/-- Witness for C10: three devices, selector `10de:1e04`; the count query
returns 2 and the fill call of capacity 2 stores handles 1 and 3. -/
theorem count_then_fill_consistent_witness :
    (device_select_EnumeratePhysicalDevices (example_env (some "10de:1e04") [1, 2, 3])
      example_instances 7 0 none).pPhysicalDeviceCount = 2 ∧
    device_select_EnumeratePhysicalDevices (example_env (some "10de:1e04") [1, 2, 3])
        example_instances 7 2 (some [9, 9])
      = ⟨Termination.returned VK_SUCCESS, example_instances, [], 2, some [1, 3]⟩ :=
  ⟨(count_then_fill_consistent (example_env (some "10de:1e04") [1, 2, 3]) example_instances 7
      example_info [1, 2, 3] [1, 3] [9, 9] 0 (by decide) (by decide) (by decide)).2.1,
    (count_then_fill_consistent (example_env (some "10de:1e04") [1, 2, 3]) example_instances 7
      example_info [1, 2, 3] [1, 3] [9, 9] 0 (by decide) (by decide) (by decide)).2.2⟩

/-- C11, counterexample: a bare count query (null buffer) with the selector
`list` on three devices prints the listing and ends the process with status
0. -/
theorem list_mode_in_count_query :
    device_select_EnumeratePhysicalDevices (example_env (some "list") [1, 2, 3])
        example_instances 7 0 none
      = ⟨Termination.exited 0, example_instances,
          ["selectable devices:\n", "  GPU 0: 10de:1e04 \"A\" discrete GPU\n",
            "  GPU 1: 1002:731f \"B\" discrete GPU\n",
            "  GPU 2: 10de:1e04 \"C\" discrete GPU\n"], 0, none⟩ := by
  decide

/-- C11, amended (list mode runs in every call that fetched the list): with
the selector `list`, whenever the underlying count and fill queries succeed,
the call prints the listing (the header and one line per device) and ends the
process with status 0 whether the caller passes an output buffer or a null
pointer; the two kinds of call print the same text and neither writes the
caller's count or buffer. -/
theorem list_mode_runs_on_every_call (env : Env) (instances : Registry) (inst : VkInstance)
    (info : instance_info) (devs buffer : List VkPhysicalDevice) (N : Nat)
    (hsrc : source_succeeds env instances inst info devs)
    (hsel : env.selection = some "list") :
    (device_select_EnumeratePhysicalDevices env instances inst N none).term
      = Termination.exited 0 ∧
    (device_select_EnumeratePhysicalDevices env instances inst N (some buffer)).term
      = Termination.exited 0 ∧
    (device_select_EnumeratePhysicalDevices env instances inst N none).stderr
      = (device_select_EnumeratePhysicalDevices env instances inst N (some buffer)).stderr ∧
    (device_select_EnumeratePhysicalDevices env instances inst N none).stderr.length
      = devs.length + 1 ∧
    (device_select_EnumeratePhysicalDevices env instances inst N none).stderr.head?
      = some "selectable devices:\n" ∧
    (device_select_EnumeratePhysicalDevices env instances inst N none).pPhysicalDeviceCount
      = N ∧
    (device_select_EnumeratePhysicalDevices env instances inst N (some buffer)).pPhysicalDeviceCount
      = N ∧
    (device_select_EnumeratePhysicalDevices env instances inst N (some buffer)).pPhysicalDevices
      = some buffer := by
  rw [list_mode_outcome env instances inst info devs N none hsrc hsel,
    list_mode_outcome env instances inst info devs N (some buffer) hsrc hsel]
  simp [spec_listing_length]

/-- Witness for C11: three devices, a count query and a fill call of capacity
3. -/
theorem list_mode_runs_on_every_call_witness :
    (device_select_EnumeratePhysicalDevices (example_env (some "list") [1, 2, 3])
      example_instances 7 3 none).term = Termination.exited 0 ∧
    (device_select_EnumeratePhysicalDevices (example_env (some "list") [1, 2, 3])
      example_instances 7 3 (some [9, 9, 9])).term = Termination.exited 0 :=
  ⟨(list_mode_runs_on_every_call (example_env (some "list") [1, 2, 3]) example_instances 7
      example_info [1, 2, 3] [9, 9, 9] 3 (by decide) rfl).1,
    (list_mode_runs_on_every_call (example_env (some "list") [1, 2, 3]) example_instances 7
      example_info [1, 2, 3] [9, 9, 9] 3 (by decide) rfl).2.1⟩

/-- C12, counterexample: the lookup `instances[8]` in an empty table, where
handle 8 was never registered, returns an all-null record and stores it; and
after handle 7 was registered by a successful `CreateInstance` and removed by
`DestroyInstance`, the lookup `instances[7]` returns an all-null record as
well. -/
theorem lookup_fabricates_record :
    Registry.index [] 8 = (instance_info.zero, [(8, instance_info.zero)]) ∧
    (CreateInstance example_next [] example_chain 0).term
      = Termination.returned VK_SUCCESS ∧
    List.lookup 7 (CreateInstance example_next [] example_chain 0).instances
      = some ⟨17, 26, 3, 4, 29⟩ ∧
    DestroyInstance (CreateInstance example_next [] example_chain 0).instances 7
      = (true, []) ∧
    Registry.index
        (DestroyInstance (CreateInstance example_next [] example_chain 0).instances 7).2 7
      = (instance_info.zero, [(7, instance_info.zero)]) := by
  decide

/-- C12, amended (registry lifecycle): a lookup `instances[h]` after `h` was
registered with record `r` returns `r` and leaves the table as it is, and a
successful `CreateInstance` registers the handle it returns in this way; a
lookup of a handle that has no record, because it was never registered or
because `DestroyInstance` removed it, returns a fabricated all-null record
and stores it in the table; the entry points that made such a lookup
(enumeration, destruction, the forwarding proc-address lookups) then call
through a null pointer, which is undefined behaviour. -/
theorem registry_lifecycle (instances : Registry) (inst : VkInstance)
    (hmissing : List.lookup inst instances = none) :
    (∀ r : instance_info,
      Registry.index (Registry.assign instances inst r) inst
        = (r, Registry.assign instances inst r)) ∧
    (∀ (next : NextLayer) (pNext : List VkLayerInstanceCreateInfo) (pInstance : VkInstance),
      (CreateInstance next instances pNext pInstance).term
          = Termination.returned VK_SUCCESS →
      ∃ r : instance_info,
        (CreateInstance next instances pNext pInstance).instances
          = Registry.assign instances (CreateInstance next instances pNext pInstance).pInstance
            r ∧
        Registry.index (CreateInstance next instances pNext pInstance).instances
            (CreateInstance next instances pNext pInstance).pInstance
          = (r, (CreateInstance next instances pNext pInstance).instances)) ∧
    Registry.index instances inst
      = (instance_info.zero, (inst, instance_info.zero) :: instances) ∧
    (∀ (m : Registry) (h : VkInstance),
      Registry.index (DestroyInstance m h).2 h
        = (instance_info.zero, (h, instance_info.zero) :: (DestroyInstance m h).2)) ∧
    (∀ (env : Env) (N : Nat) (buffer : Option (List VkPhysicalDevice)),
      (device_select_EnumeratePhysicalDevices env instances inst N buffer).term
        = Termination.undefined) ∧
    (DestroyInstance instances inst).1 = false ∧
    (∀ (next : NextLayer) (name : String),
      (get_pdevice_proc_addr next instances inst name).1 = none) ∧
    (∀ (self : LayerAddresses) (next : NextLayer) (name : String),
      name ≠ "vkCreateInstance" → name ≠ "vkDestroyInstance" →
      name ≠ "vkEnumeratePhysicalDevices" →
      (get_instance_proc_addr self next instances inst name).1 = none) := by
  refine ⟨?_, ?_, index_missing instances inst hmissing, ?_, ?_, ?_, ?_, ?_⟩
  · intro r
    exact index_registered _ inst r (by rw [lookup_assign]; simp)
  · intro next pNext pInstance hterm
    rcases create_shape next instances pNext pInstance VK_SUCCESS hterm with
      ⟨_, r, hr⟩ | ⟨hne, _⟩
    · refine ⟨r, hr, ?_⟩
      exact index_registered _ _ r (by rw [hr, lookup_assign]; simp)
    · exact absurd rfl hne
  · intro m h
    exact index_missing _ h (by rw [lookup_destroy]; simp)
  · intro env N buffer
    rw [enumerate_unregistered env instances inst N buffer hmissing]
  · simp [DestroyInstance, index_missing instances inst hmissing, instance_info.zero]
  · intro next name
    simp [get_pdevice_proc_addr, index_missing instances inst hmissing, instance_info.zero]
  · intro self next name h1 h2 h3
    simp [get_instance_proc_addr, h1, h2, h3, index_missing instances inst hmissing,
      instance_info.zero]

/-- Witness for C12: the table of the examples holds no record for handle
8. -/
theorem registry_lifecycle_witness :
    Registry.index example_instances 8
      = (instance_info.zero, (8, instance_info.zero) :: example_instances) ∧
    (DestroyInstance example_instances 8).1 = false :=
  ⟨(registry_lifecycle example_instances 8 (by decide)).2.2.1,
    (registry_lifecycle example_instances 8 (by decide)).2.2.2.2.2.1⟩

/-- C13, counterexample: on the empty table, an enumeration on handle 8, which
was never created, leaves a record for 8 in the table, and so do a
proc-address lookup of a name that is not intercepted and a physical-device
proc-address lookup (each of them then calls through a null pointer). -/
theorem lookup_on_unknown_handle_adds_record :
    (device_select_EnumeratePhysicalDevices (example_env none [1, 2, 3]) [] 8 0 none).instances
      = [(8, instance_info.zero)] ∧
    (get_instance_proc_addr example_self example_next [] 8 "vkGetDeviceProcAddr").2
      = [(8, instance_info.zero)] ∧
    (get_pdevice_proc_addr example_next [] 8 "vkGetPhysicalDeviceSurfaceFormatsKHR").2
      = [(8, instance_info.zero)] := by
  decide

/-- C13, amended (registry invariant on completed runs): after every finite
sequence of layer operations, started on the empty table, in which every call
returns (none ends the process or runs into a call through a null pointer),
the table holds a record for a handle if and only if the handle was created
by a successful `CreateInstance` and not destroyed since; an enumeration that
returns, and a proc-address lookup that returns a pointer, leave the table as
it was; and a `CreateInstance` that returns a status other than `VK_SUCCESS`
adds no record. -/
theorem registry_invariant (self : LayerAddresses) (steps : List Step) (after : Registry)
    (live : List VkInstance) (hrun : run self steps [] [] = some (after, live)) :
    (∀ h : VkInstance, (List.lookup h after).isSome = true ↔ h ∈ live) ∧
    (∀ (env : Env) (instances : Registry) (inst : VkInstance) (N : Nat)
      (buffer : Option (List VkPhysicalDevice)) (result : VkResult),
      (device_select_EnumeratePhysicalDevices env instances inst N buffer).term
          = Termination.returned result →
      (device_select_EnumeratePhysicalDevices env instances inst N buffer).instances
        = instances) ∧
    (∀ (next : NextLayer) (instances : Registry) (inst : VkInstance) (name : String)
      (p : FnPtr),
      (get_instance_proc_addr self next instances inst name).1 = some p →
      (get_instance_proc_addr self next instances inst name).2 = instances) ∧
    (∀ (next : NextLayer) (instances : Registry) (inst : VkInstance) (name : String)
      (p : FnPtr),
      (get_pdevice_proc_addr next instances inst name).1 = some p →
      (get_pdevice_proc_addr next instances inst name).2 = instances) ∧
    (∀ (next : NextLayer) (instances : Registry) (pNext : List VkLayerInstanceCreateInfo)
      (pInstance : VkInstance) (result : VkResult),
      (CreateInstance next instances pNext pInstance).term = Termination.returned result →
      result ≠ VK_SUCCESS →
      (CreateInstance next instances pNext pInstance).instances = instances) := by
  refine ⟨?_, ?_, ?_, ?_, ?_⟩
  · exact run_invariant self steps [] [] after live (by simp) hrun
  · intro env instances inst N buffer result h
    exact enumerate_returned_keeps env instances inst N buffer result h
  · intro next instances inst name p h
    exact gipa_returned_keeps self next instances inst name p _
      (Prod.ext h rfl)
  · intro next instances inst name p h
    exact gpdpa_returned_keeps next instances inst name p _ (Prod.ext h rfl)
  · intro next instances pNext pInstance result h hne
    rcases create_shape next instances pNext pInstance result h with ⟨hres, _⟩ | ⟨_, hr⟩
    · exact absurd hres hne
    · exact hr

/-- Witness for C13: a creation that yields handle 7, an enumeration and two
proc-address lookups on it, a failed creation, then the destruction of 7 and
a second creation; the table ends with a record for 7 and none for 8. -/
theorem registry_invariant_witness :
    ((List.lookup 7 [(7, (⟨17, 26, 3, 4, 29⟩ : instance_info))]).isSome = true ↔ 7 ∈ [7]) ∧
    ((List.lookup 8 [(7, (⟨17, 26, 3, 4, 29⟩ : instance_info))]).isSome = true ↔ 8 ∈ [7]) :=
  ⟨(registry_invariant example_self
      [⟨example_env none [1, 2, 3], example_next, Call.CreateInstance example_chain 0⟩,
        ⟨example_env none [1, 2, 3], example_next, Call.EnumeratePhysicalDevices 7 0 none⟩,
        ⟨example_env none [1, 2, 3], example_next, Call.get_instance_proc_addr 7 "vkFoo"⟩,
        ⟨example_env none [1, 2, 3], example_next, Call.get_pdevice_proc_addr 7 "vkFoo"⟩,
        ⟨example_env none [1, 2, 3], failing_next, Call.CreateInstance example_chain 0⟩,
        ⟨example_env none [1, 2, 3], example_next, Call.DestroyInstance 7⟩,
        ⟨example_env none [1, 2, 3], example_next, Call.CreateInstance example_chain 0⟩]
      [(7, ⟨17, 26, 3, 4, 29⟩)] [7] (by decide)).1 7,
    (registry_invariant example_self
      [⟨example_env none [1, 2, 3], example_next, Call.CreateInstance example_chain 0⟩,
        ⟨example_env none [1, 2, 3], example_next, Call.EnumeratePhysicalDevices 7 0 none⟩,
        ⟨example_env none [1, 2, 3], example_next, Call.get_instance_proc_addr 7 "vkFoo"⟩,
        ⟨example_env none [1, 2, 3], example_next, Call.get_pdevice_proc_addr 7 "vkFoo"⟩,
        ⟨example_env none [1, 2, 3], failing_next, Call.CreateInstance example_chain 0⟩,
        ⟨example_env none [1, 2, 3], example_next, Call.DestroyInstance 7⟩,
        ⟨example_env none [1, 2, 3], example_next, Call.CreateInstance example_chain 0⟩]
      [(7, ⟨17, 26, 3, 4, 29⟩)] [7] (by decide)).1 8⟩

/-- C14 (proc-address dispatch): for every handle and every table,
`get_instance_proc_addr` returns the layer's own `CreateInstance`,
`DestroyInstance` and `device_select_EnumeratePhysicalDevices` for the names
`vkCreateInstance`, `vkDestroyInstance` and `vkEnumeratePhysicalDevices`
without looking at the handle; for every other name, when the handle is
registered with a non-null resolver, it returns what that resolver returns for
the same handle and name; the table is left as it was in each case. -/
theorem proc_addr_dispatch (self : LayerAddresses) (next : NextLayer) (instances : Registry)
    (inst : VkInstance) (name : String) :
    (name = "vkCreateInstance" →
      get_instance_proc_addr self next instances inst name
        = (some self.CreateInstance, instances)) ∧
    (name = "vkDestroyInstance" →
      get_instance_proc_addr self next instances inst name
        = (some self.DestroyInstance, instances)) ∧
    (name = "vkEnumeratePhysicalDevices" →
      get_instance_proc_addr self next instances inst name
        = (some self.device_select_EnumeratePhysicalDevices, instances)) ∧
    (name ≠ "vkCreateInstance" → name ≠ "vkDestroyInstance" →
      name ≠ "vkEnumeratePhysicalDevices" →
      ∀ info : instance_info, List.lookup inst instances = some info →
        info.GetInstanceProcAddr ≠ 0 →
        get_instance_proc_addr self next instances inst name
          = (some (next.call_GetInstanceProcAddr info.GetInstanceProcAddr inst name),
              instances)) := by
  refine ⟨?_, ?_, ?_, ?_⟩
  · intro h
    subst h
    simp [get_instance_proc_addr]
  · intro h
    subst h
    simp [get_instance_proc_addr]
  · intro h
    subst h
    simp [get_instance_proc_addr]
  · intro h1 h2 h3 info hreg hptr
    simp [get_instance_proc_addr, h1, h2, h3, index_registered instances inst info hreg, hptr]

/-- Witness for C14: the three intercepted names on an unknown handle, and a
forwarded name on the registered handle 7. -/
theorem proc_addr_dispatch_witness :
    get_instance_proc_addr example_self example_next example_instances 8 "vkCreateInstance"
      = (some 101, example_instances) ∧
    get_instance_proc_addr example_self example_next example_instances 8 "vkDestroyInstance"
      = (some 102, example_instances) ∧
    get_instance_proc_addr example_self example_next example_instances 8
        "vkEnumeratePhysicalDevices" = (some 103, example_instances) ∧
    get_instance_proc_addr example_self example_next example_instances 7 "vkGetDeviceProcAddr"
      = (some 19, example_instances) :=
  ⟨(proc_addr_dispatch example_self example_next example_instances 8 "vkCreateInstance").1 rfl,
    (proc_addr_dispatch example_self example_next example_instances 8
      "vkDestroyInstance").2.1 rfl,
    (proc_addr_dispatch example_self example_next example_instances 8
      "vkEnumeratePhysicalDevices").2.2.1 rfl,
    (proc_addr_dispatch example_self example_next example_instances 7
      "vkGetDeviceProcAddr").2.2.2 (by decide) (by decide) (by decide) example_info
      (by decide) (by decide)⟩

/-- C15, counterexample: the empty selector does not take the all-devices arm
of an absent selector but the parse-failure arm, and a call with it on three
devices prints the failure message and ends the process with status 1. -/
theorem empty_selector_rejected_example :
    selection_policy (some "") = SelectionPolicy.ConfigParseError "" ∧
    selection_policy (some "") ≠ selection_policy none ∧
    device_select_EnumeratePhysicalDevices (example_env (some "") [1, 2, 3])
        example_instances 7 3 (some [9, 9, 9])
      = ⟨Termination.exited 1, example_instances,
          ["failed to parse MESA_VK_DEVICE_SELECT: \"\"\n"], 3, some [9, 9, 9]⟩ := by
  decide

/-- C15, amended (the empty selector is a parse failure): when the selector
variable is present but is the empty string, `sscanf` returns `EOF`, so the
selector takes the parse-failure arm; whenever the underlying queries succeed
the call selects no device at all: it prints the failure message with the
empty string and ends the process with status 1, leaving the caller's count
and buffer as they were. -/
theorem empty_selector_is_parse_failure (env : Env) (instances : Registry)
    (inst : VkInstance) (info : instance_info) (devs : List VkPhysicalDevice) (N : Nat)
    (buffer : Option (List VkPhysicalDevice))
    (hsrc : source_succeeds env instances inst info devs)
    (hsel : env.selection = some "") :
    sscanf_x_colon_x "".toList = (-1, 0, 0) ∧
    selection_policy env.selection = SelectionPolicy.ConfigParseError "" ∧
    device_select_EnumeratePhysicalDevices env instances inst N buffer
      = ⟨Termination.exited 1, instances,
          ["failed to parse MESA_VK_DEVICE_SELECT: \"\"\n"], N, buffer⟩ := by
  have hpol : selection_policy env.selection = SelectionPolicy.ConfigParseError "" := by
    rw [hsel]; decide
  refine ⟨by decide, hpol, ?_⟩
  obtain ⟨hreg, he, hp, h1, hc1, hc2, h2, hle⟩ := hsrc
  unfold device_select_EnumeratePhysicalDevices
  simp only [Registry.index, hreg, he, h1, hc1, hc2, h2, if_false, ne_eq,
    not_true_eq_false, and_self, not_false_eq_true, if_true, hpol]
  rfl

/-- Witness for C15: three devices, the empty selector, a count query. -/
theorem empty_selector_is_parse_failure_witness :
    device_select_EnumeratePhysicalDevices (example_env (some "") [1, 2, 3])
        example_instances 7 0 none
      = ⟨Termination.exited 1, example_instances,
          ["failed to parse MESA_VK_DEVICE_SELECT: \"\"\n"], 0, none⟩ :=
  (empty_selector_is_parse_failure (example_env (some "") [1, 2, 3]) example_instances 7
    example_info [1, 2, 3] 0 none (by decide) rfl).2.2

/-- C16, counterexample: in the listing of three devices the line of the
first device carries the index 0, not 1, and the listing differs from the
1-indexed listing of the same devices. -/
theorem listing_is_zero_indexed_example :
    (device_select_EnumeratePhysicalDevices (example_env (some "list") [1, 2, 3])
        example_instances 7 3 (some [9, 9, 9])).stderr
      = ["selectable devices:\n", "  GPU 0: 10de:1e04 \"A\" discrete GPU\n",
          "  GPU 1: 1002:731f \"B\" discrete GPU\n",
          "  GPU 2: 10de:1e04 \"C\" discrete GPU\n"] ∧
    (device_select_EnumeratePhysicalDevices (example_env (some "list") [1, 2, 3])
        example_instances 7 3 (some [9, 9, 9])).stderr
      ≠ "selectable devices:\n" :: spec_listing example_props 1 [1, 2, 3] := by
  decide

/-- C16, amended (list mode output, 0-indexed): with the selector `list`,
whenever the underlying queries succeed on the unfiltered list `devs`, the
call prints the header and then exactly one line per device in unfiltered
order, and the line of the device at position `k` counted from 0 (the
`k+1`-th device) carries the index `k` in decimal, the device's vendor and
device identifiers in hexadecimal, its name and its type string; the process
then ends with status 0. -/
theorem list_mode_output (env : Env) (instances : Registry) (inst : VkInstance)
    (info : instance_info) (devs : List VkPhysicalDevice) (N : Nat)
    (buffer : Option (List VkPhysicalDevice))
    (hsrc : source_succeeds env instances inst info devs)
    (hsel : env.selection = some "list") :
    (device_select_EnumeratePhysicalDevices env instances inst N buffer).term
      = Termination.exited 0 ∧
    (device_select_EnumeratePhysicalDevices env instances inst N buffer).stderr
      = "selectable devices:\n" :: spec_listing
          (env.call_GetPhysicalDeviceProperties info.GetPhysicalDeviceProperties) 0 devs ∧
    (device_select_EnumeratePhysicalDevices env instances inst N buffer).stderr.length
      = devs.length + 1 ∧
    (∀ (k : Nat) (dev : VkPhysicalDevice), devs[k]? = some dev → k < 2 ^ 31 →
      (device_select_EnumeratePhysicalDevices env instances inst N buffer).stderr[k + 1]?
        = some ("  GPU " ++ toString k ++ ": "
          ++ fmt_x (env.call_GetPhysicalDeviceProperties info.GetPhysicalDeviceProperties
              dev).vendorID ++ ":"
          ++ fmt_x (env.call_GetPhysicalDeviceProperties info.GetPhysicalDeviceProperties
              dev).deviceID ++ " \""
          ++ (env.call_GetPhysicalDeviceProperties info.GetPhysicalDeviceProperties
              dev).deviceName ++ "\" "
          ++ type_string (env.call_GetPhysicalDeviceProperties
              info.GetPhysicalDeviceProperties dev).deviceType ++ "\n")) := by
  rw [list_mode_outcome env instances inst info devs N buffer hsrc hsel]
  refine ⟨rfl, rfl, by simp [spec_listing_length], ?_⟩
  intro k dev hk hlt
  simp only [List.getElem?_cons_succ]
  rw [spec_listing_get _ devs 0 k dev hk, Nat.zero_add, list_line, fmt_d_small k hlt]

/-- Witness for C16: the listing of the three example devices. -/
theorem list_mode_output_witness :
    (device_select_EnumeratePhysicalDevices (example_env (some "list") [1, 2, 3])
        example_instances 7 0 none).stderr
      = "selectable devices:\n" :: spec_listing example_props 0 [1, 2, 3] :=
  (list_mode_output (example_env (some "list") [1, 2, 3]) example_instances 7 example_info
    [1, 2, 3] 0 none (by decide) rfl).2.1

/-- C17 (fill-call frame): in a fill call with capacity `N` that returns
`VK_SUCCESS` or `VK_INCOMPLETE`, the returned count is at most `N`, the
caller's array keeps its length, and every entry at an index greater than or
equal to the returned count is what it was before the call. -/
theorem fill_call_frame (env : Env) (instances : Registry) (inst : VkInstance) (N : Nat)
    (buffer : List VkPhysicalDevice)
    (_hret : (device_select_EnumeratePhysicalDevices env instances inst N (some buffer)).term
        = Termination.returned VK_SUCCESS ∨
      (device_select_EnumeratePhysicalDevices env instances inst N (some buffer)).term
        = Termination.returned VK_INCOMPLETE) :
    (device_select_EnumeratePhysicalDevices env instances inst N
      (some buffer)).pPhysicalDeviceCount ≤ N ∧
    ∃ after : List VkPhysicalDevice,
      (device_select_EnumeratePhysicalDevices env instances inst N
        (some buffer)).pPhysicalDevices = some after ∧
      after.length = buffer.length ∧
      ∀ j : Nat,
        (device_select_EnumeratePhysicalDevices env instances inst N
          (some buffer)).pPhysicalDeviceCount ≤ j →
        after[j]? = buffer[j]? := by
  rcases enumerate_shape env instances inst N (some buffer) with
    ⟨term, reg, err, h⟩ | ⟨reg, sel, k, h⟩
  · rw [h]
    exact ⟨Nat.le_refl N, buffer, rfl, rfl, fun _ _ => rfl⟩
  · rw [h]
    exact write_back_frame reg sel buffer k N

/-- Witness for C17: three devices, selector `10de:1e04`, capacity 3 and an
array of four entries; entries 2 and 3 keep their values. -/
theorem fill_call_frame_witness :
    (device_select_EnumeratePhysicalDevices (example_env (some "10de:1e04") [1, 2, 3])
      example_instances 7 3 (some [9, 8, 7, 6])).pPhysicalDeviceCount ≤ 3 ∧
    ∃ after : List VkPhysicalDevice,
      (device_select_EnumeratePhysicalDevices (example_env (some "10de:1e04") [1, 2, 3])
        example_instances 7 3 (some [9, 8, 7, 6])).pPhysicalDevices = some after ∧
      after.length = [9, 8, 7, 6].length ∧
      ∀ j : Nat,
        (device_select_EnumeratePhysicalDevices (example_env (some "10de:1e04") [1, 2, 3])
          example_instances 7 3 (some [9, 8, 7, 6])).pPhysicalDeviceCount ≤ j →
        after[j]? = [9, 8, 7, 6][j]? :=
  fill_call_frame (example_env (some "10de:1e04") [1, 2, 3]) example_instances 7 3
    [9, 8, 7, 6] (Or.inl (by decide))

/-- C18 (bounded selection): for a registered handle with non-null pointers,
when the count query reports `first.count`, both allocations succeed and the
fill query succeeds and reports a count `second.count` no larger than
`first.count`, then with a `MatchExact` selector: after every number `j` of
iterations of the loop of lines 149-155 (up to `second.count`) no access
outside `physical_devices` or `selected_physical_devices` has occurred, the
selected count is at most `j`, the selected array still has its allocated
length `first.count`, and the rest of the loop continues from that state; the
call does not run into undefined behaviour, and the count returned by a count
query is at most `second.count`. -/
theorem bounded_selection (env : Env) (instances : Registry) (inst : VkInstance)
    (info : instance_info) (first second : EnumReply) (vendor_id device_id : Nat)
    (hreg : instances.lookup inst = some info)
    (he : info.EnumeratePhysicalDevices ≠ 0) (hp : info.GetPhysicalDeviceProperties ≠ 0)
    (hfirst : env.call_EnumeratePhysicalDevices info.EnumeratePhysicalDevices inst 0 false
      = first)
    (hsecond : env.call_EnumeratePhysicalDevices info.EnumeratePhysicalDevices inst
      first.count true = second)
    (h1 : first.result = VK_SUCCESS) (h2 : second.result = VK_SUCCESS)
    (hc1 : env.calloc_physical_devices = true)
    (hc2 : env.calloc_selected_physical_devices = true)
    (hbound : second.count ≤ first.count)
    (hpol : selection_policy env.selection = SelectionPolicy.MatchExact vendor_id device_id) :
    (∀ j : Nat, j ≤ second.count →
      ∃ (sel : List VkPhysicalDevice) (k : Nat),
        exact_match_loop
            (env.call_GetPhysicalDeviceProperties info.GetPhysicalDeviceProperties)
            vendor_id device_id
            ((second.devices ++ List.replicate first.count 0).take first.count) j 0
            (List.replicate first.count 0, 0) = some (sel, k) ∧
        k ≤ j ∧ sel.length = first.count ∧
        exact_match_loop
            (env.call_GetPhysicalDeviceProperties info.GetPhysicalDeviceProperties)
            vendor_id device_id
            ((second.devices ++ List.replicate first.count 0).take first.count)
            second.count 0 (List.replicate first.count 0, 0)
          = exact_match_loop
            (env.call_GetPhysicalDeviceProperties info.GetPhysicalDeviceProperties)
            vendor_id device_id
            ((second.devices ++ List.replicate first.count 0).take first.count)
            (second.count - j) j (sel, k)) ∧
    (∀ N : Nat,
      (device_select_EnumeratePhysicalDevices env instances inst N none).term
        = Termination.returned VK_SUCCESS ∧
      (device_select_EnumeratePhysicalDevices env instances inst N none).pPhysicalDeviceCount
        ≤ second.count) ∧
    (∀ (N : Nat) (buffer : List VkPhysicalDevice), N ≤ buffer.length →
      (device_select_EnumeratePhysicalDevices env instances inst N (some buffer)).term
        ≠ Termination.undefined) := by
  have hlen : ((second.devices ++ List.replicate first.count 0).take first.count).length
      = first.count := by
    simp [List.length_take]
  refine ⟨?_, ?_, ?_⟩
  · intro j hj
    obtain ⟨sel, k, hloop, hk, hsl⟩ := exact_match_prefix
      (env.call_GetPhysicalDeviceProperties info.GetPhysicalDeviceProperties)
      vendor_id device_id _ first.count j hlen (by omega)
    refine ⟨sel, k, hloop, hk, hsl, ?_⟩
    have hadd := exact_match_loop_add
      (env.call_GetPhysicalDeviceProperties info.GetPhysicalDeviceProperties)
      vendor_id device_id
      ((second.devices ++ List.replicate first.count 0).take first.count)
      j (second.count - j) 0 (List.replicate first.count 0, 0)
    have e : j + (second.count - j) = second.count := by omega
    rw [e, hloop] at hadd
    simpa using hadd
  · intro N
    obtain ⟨sel, k, hloop, hk, _⟩ := exact_match_prefix
      (env.call_GetPhysicalDeviceProperties info.GetPhysicalDeviceProperties)
      vendor_id device_id _ first.count second.count hlen hbound
    unfold device_select_EnumeratePhysicalDevices
    simp only [Registry.index, hreg, he, hfirst, hsecond, h1, h2, hc1, hc2, hp, if_false, ne_eq,
      not_true_eq_false, and_self, not_false_eq_true, if_true, hpol, false_and, hloop,
      write_back_count]
    exact ⟨trivial, hk⟩
  · intro N buffer hcap
    obtain ⟨sel, k, hloop, hk, hsl⟩ := exact_match_prefix
      (env.call_GetPhysicalDeviceProperties info.GetPhysicalDeviceProperties)
      vendor_id device_id _ first.count second.count hlen hbound
    unfold device_select_EnumeratePhysicalDevices
    simp only [Registry.index, hreg, he, hfirst, hsecond, h1, h2, hc1, hc2, hp, if_false, ne_eq,
      not_true_eq_false, and_self, not_false_eq_true, if_true, hpol, false_and, hloop]
    unfold write_back
    simp only
    have hcl := copy_loop_eq sel (if k < N then k else N) 0 buffer
      (by split <;> omega) (by split <;> omega)
    rw [hcl]
    simp

/-- Witness for C18: a source whose fill query reports fewer devices (2) than
its count query (3); after one and after two iterations the selected count is
within the number of devices examined. -/
theorem bounded_selection_witness :
    (device_select_EnumeratePhysicalDevices shrinking_env example_instances 7 0 none).term
      = Termination.returned VK_SUCCESS ∧
    (device_select_EnumeratePhysicalDevices shrinking_env example_instances 7 0
      none).pPhysicalDeviceCount ≤ 2 :=
  (bounded_selection shrinking_env example_instances 7 example_info ⟨VK_SUCCESS, 3, []⟩
    ⟨VK_SUCCESS, 2, [1, 3]⟩ 0x10de 0x1e04 (by decide) (by decide) (by decide) rfl rfl rfl rfl
    rfl rfl (by decide) (by decide)).2.1 0

/-- C19 (interface negotiation): for every offered version `v`, when `v < 2`
`vkNegotiateLoaderLayerInterfaceVersion` returns
`VK_ERROR_INITIALIZATION_FAILED` and leaves the structure as it was; when
`2 ≤ v` it returns `VK_SUCCESS`, sets the version to 2, which is not higher
than the version offered, installs `get_instance_proc_addr` and
`get_pdevice_proc_addr` as the two entry points and leaves the third pointer
as it was. -/
theorem interface_negotiation (self : LayerAddresses)
    (pVersionStruct : VkNegotiateLayerInterface) :
    (pVersionStruct.loaderLayerInterfaceVersion < 2 →
      vkNegotiateLoaderLayerInterfaceVersion self pVersionStruct
        = (VK_ERROR_INITIALIZATION_FAILED, pVersionStruct)) ∧
    (2 ≤ pVersionStruct.loaderLayerInterfaceVersion →
      (vkNegotiateLoaderLayerInterfaceVersion self pVersionStruct).1 = VK_SUCCESS ∧
      (vkNegotiateLoaderLayerInterfaceVersion self pVersionStruct).2.loaderLayerInterfaceVersion
        = 2 ∧
      (vkNegotiateLoaderLayerInterfaceVersion self pVersionStruct).2.loaderLayerInterfaceVersion
        ≤ pVersionStruct.loaderLayerInterfaceVersion ∧
      (vkNegotiateLoaderLayerInterfaceVersion self pVersionStruct).2.pfnGetInstanceProcAddr
        = self.get_instance_proc_addr ∧
      (vkNegotiateLoaderLayerInterfaceVersion self pVersionStruct).2.pfnGetPhysicalDeviceProcAddr
        = self.get_pdevice_proc_addr ∧
      (vkNegotiateLoaderLayerInterfaceVersion self pVersionStruct).2.pfnGetDeviceProcAddr
        = pVersionStruct.pfnGetDeviceProcAddr) := by
  constructor
  · intro h
    simp [vkNegotiateLoaderLayerInterfaceVersion, h]
  · intro h
    have hn : ¬ pVersionStruct.loaderLayerInterfaceVersion < 2 := by omega
    simp [vkNegotiateLoaderLayerInterfaceVersion, hn, h]

/-- Witness for C19: an offered version 1 and an offered version 5. -/
theorem interface_negotiation_witness :
    vkNegotiateLoaderLayerInterfaceVersion example_self ⟨1, 5, 6, 7⟩
      = (VK_ERROR_INITIALIZATION_FAILED, ⟨1, 5, 6, 7⟩) ∧
    (vkNegotiateLoaderLayerInterfaceVersion example_self ⟨5, 5, 6, 7⟩).1 = VK_SUCCESS ∧
    (vkNegotiateLoaderLayerInterfaceVersion example_self
      ⟨5, 5, 6, 7⟩).2.loaderLayerInterfaceVersion = 2 :=
  ⟨(interface_negotiation example_self ⟨1, 5, 6, 7⟩).1 (by decide),
    ((interface_negotiation example_self ⟨5, 5, 6, 7⟩).2 (by decide)).1,
    ((interface_negotiation example_self ⟨5, 5, 6, 7⟩).2 (by decide)).2.1⟩

end DeviceSelect
